import Mathlib

/-!
# Verification of the Caldarium template-classification and extraction core

Shallow embedding of the Python source under `src/` (notably
`parser_prototype.py`, `invoice_parser.py`, `template_detector.py`,
`build_template_fps.py`, `consentform_parser.py`) together with proofs
settling the frozen claims about it.

Modelling conventions:
* Python `dict`s with dynamic keys are association lists
  `List (String × JVal)` with Python's insertion-order update semantics;
  Python values (None / str / float / int / bool / list / dict) are the
  inductive `JVal`.  Python floats are modelled as exact rationals.
* Scores computed with `math.sqrt` (cosine similarity) are modelled as
  exact real numbers.
* Python text is modelled as `List Char`; the handful of `re` patterns and
  string methods the claims touch are implemented with Python semantics
  (documented at each definition).
* Fallible code returns `Except String α`; an uncaught Python exception is
  `.error msg`.
-/

namespace Caldarium

/-- Python values as they appear in the parser's field maps:
`None`, `str`, numbers (floats modelled as exact `ℚ`), `int`, `bool`,
lists and dicts (insertion-ordered association lists). -/
inductive JVal where
  | null
  | str (s : String)
  | num (q : ℚ)
  | int (n : ℤ)
  | bool (b : Bool)
  | arr (xs : List JVal)
  | obj (kvs : List (String × JVal))

/-- `v is None`. -/
def isNull : JVal → Bool
  | .null => true
  | _ => false

/-- A Python dict with string keys (insertion-ordered association list). -/
abbrev Dict := List (String × JVal)

/-- Python truthiness (`bool(v)`): `None`, `""`, `0`, `0.0`, `[]`, `{}` and
`False` are falsy, everything else truthy. -/
def pyTruthy : JVal → Bool
  | .null => false
  | .str s => s != ""
  | .num q => q != 0
  | .int n => n != 0
  | .bool b => b
  | .arr xs => !xs.isEmpty
  | .obj kvs => !kvs.isEmpty

/-- `k in d` for a Python dict. -/
def dictContains (d : Dict) (k : String) : Bool :=
  d.any (fun kv => kv.1 == k)

/-- `d.get(k)` / `d[k]` lookup (first — and for a genuine dict, only —
binding of `k`). -/
def dictGet? (d : Dict) (k : String) : Option JVal :=
  (d.find? (fun kv => kv.1 == k)).map (·.2)

/-- `d.get(k, default)`. -/
def dictGetD (d : Dict) (k : String) (v : JVal) : JVal :=
  (dictGet? d k).getD v

/-- `d[k] = v`: update in place when the key exists (keeping its position),
otherwise append at the end — Python dict insertion-order semantics. -/
def dictSet (d : Dict) (k : String) (v : JVal) : Dict :=
  if dictContains d k then
    d.map (fun kv => if kv.1 == k then (k, v) else kv)
  else
    d ++ [(k, v)]

/-- `d.pop(k, None)`: remove the binding of `k` when present. -/
def dictPop (d : Dict) (k : String) : Dict :=
  d.filter (fun kv => kv.1 ≠ k)

/-- `d.setdefault(k, v)`. -/
def dictSetdefault (d : Dict) (k : String) (v : JVal) : Dict :=
  if dictContains d k then d else d ++ [(k, v)]

/-- `list(d.keys())`. -/
def dictKeys (d : Dict) : List String :=
  d.map (·.1)

/-! ## `remove_nulls` (src/invoice_parser.py lines 141–151)

```python
def remove_nulls(obj):
    if isinstance(obj, dict):
        return {k: remove_nulls(v) for k, v in obj.items() if v is not None}
    elif isinstance(obj, list):
        return [remove_nulls(v) for v in obj]
    else:
        return obj
```
-/

/-- `remove_nulls` from `src/invoice_parser.py`: recursively drop dict keys
whose value is `None`; lists are mapped elementwise; scalars returned
unchanged. -/
def remove_nulls : JVal → JVal
  | .obj kvs =>
      .obj ((kvs.attach.filter (fun kv => !(isNull kv.1.2))).map
        (fun kv => (kv.1.1, remove_nulls kv.1.2)))
  | .arr xs => .arr (xs.attach.map (fun x => remove_nulls x.1))
  | v => v
termination_by v => sizeOf v
decreasing_by
  · have := kv.2; simp_wf
    calc sizeOf kv.1.2 < sizeOf kv.1 := by cases kv.1; simp
      _ < 1 + sizeOf kvs := by
          have := List.sizeOf_lt_of_mem this; omega
  · have := x.2; simp_wf
    have := List.sizeOf_lt_of_mem this; omega

/-- No dict anywhere inside `v` binds a key to `None`. -/
def noNullValuedKeys : JVal → Bool
  | .obj kvs => kvs.attach.all (fun kv => !(isNull kv.1.2) && noNullValuedKeys kv.1.2)
  | .arr xs => xs.attach.all (fun x => noNullValuedKeys x.1)
  | _ => true
termination_by v => sizeOf v
decreasing_by
  · have := kv.2; simp_wf
    calc sizeOf kv.1.2 < sizeOf kv.1 := by cases kv.1; simp
      _ < 1 + sizeOf kvs := by
          have := List.sizeOf_lt_of_mem this; omega
  · have := x.2; simp_wf
    have := List.sizeOf_lt_of_mem this; omega

/-- The record actually written by the invoice parser's main loop
(src/invoice_parser.py lines 439–443): `cleaned = remove_nulls(parsed)`
is what gets `json.dump`ed. -/
def written_invoice_record (parsed : JVal) : JVal :=
  remove_nulls parsed

theorem attach_filter_map_eq {α β : Type _} (l : List α) (q : α → Bool) (f : α → β) :
    ((l.attach.filter (fun x => q x.1)).map (fun x => f x.1)) = (l.filter q).map f := by
  rw [List.filter_attach, List.map_map]
  simp only [Function.comp_def, Subtype.map_def, id]
  exact List.attach_map_val _ _

theorem attach_all_iff {α : Type _} (l : List α) (q : α → Bool) :
    (l.attach.all (fun x => q x.1)) = true ↔ ∀ x ∈ l, q x = true := by
  rw [List.all_eq_true]
  exact ⟨fun h x hx => h ⟨x, hx⟩ (List.mem_attach _ _), fun h x _ => h x.1 x.2⟩

/-- Unfolding of `remove_nulls` on a dict, stated without `attach`. -/
theorem remove_nulls_obj (kvs : List (String × JVal)) :
    remove_nulls (.obj kvs) =
      .obj ((kvs.filter (fun kv => !(isNull kv.2))).map
        (fun kv => (kv.1, remove_nulls kv.2))) := by
  rw [remove_nulls]
  exact congrArg JVal.obj
    (attach_filter_map_eq kvs (fun kv => !(isNull kv.2)) (fun kv => (kv.1, remove_nulls kv.2)))

/-- Unfolding of `remove_nulls` on a list, stated without `attach`. -/
theorem remove_nulls_arr (xs : List JVal) :
    remove_nulls (.arr xs) = .arr (xs.map remove_nulls) := by
  rw [remove_nulls]
  exact congrArg JVal.arr (List.attach_map_val xs remove_nulls)

/-- `remove_nulls` only returns `None` when given `None`. -/
theorem remove_nulls_eq_null_iff (v : JVal) : isNull (remove_nulls v) = isNull v := by
  cases v <;> simp [remove_nulls_obj, remove_nulls_arr, isNull, remove_nulls]

/-- Membership form of `noNullValuedKeys` on dicts. -/
theorem noNull_obj_iff (kvs : List (String × JVal)) :
    noNullValuedKeys (.obj kvs) = true ↔
      ∀ kv ∈ kvs, (!(isNull kv.2) && noNullValuedKeys kv.2) = true := by
  rw [noNullValuedKeys]
  exact attach_all_iff kvs (fun kv => !(isNull kv.2) && noNullValuedKeys kv.2)

/-- Membership form of `noNullValuedKeys` on lists. -/
theorem noNull_arr_iff (xs : List JVal) :
    noNullValuedKeys (.arr xs) = true ↔ ∀ x ∈ xs, noNullValuedKeys x = true := by
  rw [noNullValuedKeys]
  exact attach_all_iff xs noNullValuedKeys

/-- After `remove_nulls`, no dict at any depth has a `None`-valued key. -/
theorem noNullValuedKeys_remove_nulls (v : JVal) :
    noNullValuedKeys (remove_nulls v) = true := by
  induction v using remove_nulls.induct with
  | case1 kvs ih =>
      rw [remove_nulls_obj, noNull_obj_iff]
      intro kv hkv
      simp only [List.mem_map, List.mem_filter] at hkv
      obtain ⟨⟨k, x⟩, ⟨hmem, hq⟩, heq⟩ := hkv
      subst heq
      rw [Bool.and_eq_true]
      refine ⟨?_, ih ⟨(k, x), hmem⟩⟩
      rw [remove_nulls_eq_null_iff]
      exact hq
  | case2 xs ih =>
      rw [remove_nulls_arr, noNull_arr_iff]
      intro x hx
      simp only [List.mem_map] at hx
      obtain ⟨y, hy, heq⟩ := hx
      subst heq
      exact ih ⟨y, hy⟩
  | case3 v h1 h2 =>
      cases v <;>
        first
          | exact (h1 _ rfl).elim
          | exact (h2 _ rfl).elim
          | simp [remove_nulls, noNullValuedKeys]

/-- **C10** — `remove_nulls` deletes every dict key whose value is `None`
(the filter), recursing into remaining values so the deletion happens at
every nesting depth, while keeping every other entry (including empty
strings and empty lists, which are non-`None` scalars/lists and survive
unchanged); consequently the record written by the invoice parser's main
loop (`cleaned = remove_nulls(parsed)`) has no `None`-valued key at any
depth. -/
theorem C10_remove_nulls_strips_nulls_only :
    (∀ kvs : List (String × JVal),
        remove_nulls (.obj kvs) =
          .obj ((kvs.filter (fun kv => !(isNull kv.2))).map
            (fun kv => (kv.1, remove_nulls kv.2))))
    ∧ (∀ s : String, remove_nulls (.str s) = .str s)
    ∧ (∀ q : ℚ, remove_nulls (.num q) = .num q)
    ∧ (∀ n : ℤ, remove_nulls (.int n) = .int n)
    ∧ (∀ b : Bool, remove_nulls (.bool b) = .bool b)
    ∧ (∀ xs : List JVal, remove_nulls (.arr xs) = .arr (xs.map remove_nulls))
    ∧ (∀ parsed : JVal, noNullValuedKeys (written_invoice_record parsed) = true) := by
  refine ⟨remove_nulls_obj, ?_, ?_, ?_, ?_, remove_nulls_arr, ?_⟩
  · intro s; simp [remove_nulls]
  · intro q; simp [remove_nulls]
  · intro n; simp [remove_nulls]
  · intro b; simp [remove_nulls]
  · intro parsed; exact noNullValuedKeys_remove_nulls parsed

/-! ## `normalize_to_invoice_schema_v1` (src/parser_prototype.py lines 7–45) -/

/-- `str.lower()` (ASCII case mapping; the keys involved are ASCII). -/
def pyLower (s : String) : String :=
  String.mk (s.data.map Char.toLower)

/-- `s.startswith(pre)`. -/
def pyStartsWith (s pre : String) : Bool :=
  pre.data.isPrefixOf s.data

/-- The `preferred` key list of `normalize_to_invoice_schema_v1`. -/
def invoice_preferred_keys : List String :=
  ["invoice_number", "invoice_date", "due_date",
   "patient_id", "patient_name", "patient_age", "patient_address",
   "patient_phone", "patient_email",
   "admission_date", "discharge_date",
   "subtotal_amount", "discount_amount", "total_amount",
   "provider_name", "bed_id"]

/-- The invoice `ExtractionSchema` field set (schema v1): the preferred keys
plus `line_items`.  This is the `S.fields` of the spec's schema-conformance
property. -/
def invoice_schema_v1_fields : List String :=
  invoice_preferred_keys ++ ["line_items"]

/-- `normalize_to_invoice_schema_v1` from `src/parser_prototype.py`:
rename `account_number` to `patient_id` when `patient_id` is absent and the
value is truthy (else just drop `account_number`); drop keys whose
lower-cased name starts with `tax`; `setdefault` four nullable keys; emit
the preferred keys first, then the remaining keys in insertion order, then
`line_items` (defaulting to `[]`). -/
def normalize_to_invoice_schema_v1 (data : Dict) : Dict :=
  let out := data
  -- account_number -> patient_id
  let out :=
    if !(dictContains out "patient_id") && pyTruthy (dictGetD out "account_number" .null) then
      dictSet (dictPop out "account_number") "patient_id" (dictGetD out "account_number" .null)
    else
      dictPop out "account_number"
  -- drop tax-ish keys defensively
  let out := out.filter (fun kv => !(pyStartsWith (pyLower kv.1) "tax"))
  let out := dictPop out "tax_percent"
  let out := dictPop out "tax_amount"
  -- ensure nullable keys exist
  let out := dictSetdefault out "provider_name" .null
  let out := dictSetdefault out "bed_id" .null
  let out := dictSetdefault out "patient_phone" .null
  let out := dictSetdefault out "patient_email" .null
  let ordered := invoice_preferred_keys.foldl
    (fun acc k =>
      if dictContains out k && k != "line_items" then
        dictSet acc k (dictGetD out k .null)
      else acc) []
  let ordered := out.foldl
    (fun acc kv =>
      if !(dictContains acc kv.1) && kv.1 != "line_items" then
        dictSet acc kv.1 kv.2
      else acc) ordered
  dictSet ordered "line_items" (dictGetD out "line_items" (.arr []))

/-! Key-set lemmas for the dict operations. -/

theorem dictContains_iff (d : Dict) (k : String) :
    dictContains d k = true ↔ k ∈ dictKeys d := by
  unfold dictContains dictKeys
  rw [List.any_eq_true]
  constructor
  · rintro ⟨kv, hmem, he⟩
    exact List.mem_map.mpr ⟨kv, hmem, by simpa using he⟩
  · intro hm
    obtain ⟨kv, hmem, he⟩ := List.mem_map.mp hm
    exact ⟨kv, hmem, by simpa using he⟩

theorem dictKeys_dictSet_of_contains (d : Dict) (k : String) (v : JVal)
    (h : dictContains d k = true) : dictKeys (dictSet d k v) = dictKeys d := by
  unfold dictSet
  rw [if_pos h]
  unfold dictKeys
  rw [List.map_map]
  apply List.map_congr_left
  intro kv _
  simp only [Function.comp_def]
  by_cases hk : kv.1 == k
  · rw [if_pos hk]; exact (eq_of_beq hk).symm
  · rw [if_neg hk]

theorem mem_dictKeys_dictSet (d : Dict) (k k' : String) (v : JVal) :
    k' ∈ dictKeys (dictSet d k v) ↔ k' ∈ dictKeys d ∨ k' = k := by
  by_cases h : dictContains d k
  · rw [dictKeys_dictSet_of_contains d k v h]
    rw [dictContains_iff] at h
    constructor
    · exact Or.inl
    · rintro (hm | he)
      · exact hm
      · exact he ▸ h
  · unfold dictSet
    rw [if_neg h]
    simp [dictKeys]

theorem mem_dictKeys_dictPop (d : Dict) (k k' : String) :
    k' ∈ dictKeys (dictPop d k) ↔ k' ∈ dictKeys d ∧ k' ≠ k := by
  simp only [dictPop, dictKeys, List.mem_map, List.mem_filter]
  constructor
  · rintro ⟨kv, ⟨hmem, hne⟩, he⟩
    subst he
    exact ⟨⟨kv, hmem, rfl⟩, by simpa using hne⟩
  · rintro ⟨⟨kv, hmem, he⟩, hne⟩
    subst he
    exact ⟨kv, ⟨hmem, by simpa using hne⟩, rfl⟩

theorem mem_dictKeys_dictSetdefault (d : Dict) (k k' : String) (v : JVal) :
    k' ∈ dictKeys (dictSetdefault d k v) ↔ k' ∈ dictKeys d ∨ k' = k := by
  unfold dictSetdefault
  by_cases h : dictContains d k
  · rw [if_pos h]
    rw [dictContains_iff] at h
    constructor
    · exact Or.inl
    · rintro (hm | he)
      · exact hm
      · exact he ▸ h
  · rw [if_neg h]
    simp [dictKeys]

theorem mem_dictKeys_filter (d : Dict) (p : String → Bool) (k' : String) :
    k' ∈ dictKeys (d.filter (fun kv => p kv.1)) ↔ k' ∈ dictKeys d ∧ p k' = true := by
  simp only [dictKeys, List.mem_map, List.mem_filter]
  constructor
  · rintro ⟨kv, ⟨hmem, hp⟩, he⟩
    subst he
    exact ⟨⟨kv, hmem, rfl⟩, hp⟩
  · rintro ⟨⟨kv, hmem, he⟩, hp⟩
    subst he
    exact ⟨kv, ⟨hmem, hp⟩, rfl⟩

theorem mem_keys_foldl_preferred (out : Dict) (l : List String) (acc : Dict) (k' : String) :
    k' ∈ dictKeys (l.foldl
      (fun acc k =>
        if dictContains out k && k != "line_items" then
          dictSet acc k (dictGetD out k .null)
        else acc) acc) ↔
      k' ∈ dictKeys acc ∨ (k' ∈ l ∧ dictContains out k' = true ∧ k' ≠ "line_items") := by
  induction l generalizing acc with
  | nil => simp
  | cons a t ih =>
      rw [List.foldl_cons, ih]
      by_cases h : (dictContains out a && (a != "line_items")) = true
      · rw [if_pos h, mem_dictKeys_dictSet]
        rw [Bool.and_eq_true, bne_iff_ne] at h
        obtain ⟨h1, h2⟩ := h
        constructor
        · rintro ((hm | he) | ht)
          · exact Or.inl hm
          · subst he; exact Or.inr ⟨List.mem_cons_self .., h1, h2⟩
          · exact Or.inr ⟨List.mem_cons_of_mem _ ht.1, ht.2⟩
        · rintro (hm | ⟨hmem, hc, hne⟩)
          · exact Or.inl (Or.inl hm)
          · rcases List.mem_cons.mp hmem with he | ht
            · exact Or.inl (Or.inr he)
            · exact Or.inr ⟨ht, hc, hne⟩
      · rw [if_neg h]
        constructor
        · rintro (hm | ht)
          · exact Or.inl hm
          · exact Or.inr ⟨List.mem_cons_of_mem _ ht.1, ht.2⟩
        · rintro (hm | ⟨hmem, hc, hne⟩)
          · exact Or.inl hm
          · rcases List.mem_cons.mp hmem with he | ht
            · subst he
              exact absurd (by rw [hc]; simpa using hne) h
            · exact Or.inr ⟨ht, hc, hne⟩

theorem mem_keys_foldl_rest (l : Dict) (acc : Dict) (k' : String) :
    k' ∈ dictKeys (l.foldl
      (fun acc kv =>
        if !(dictContains acc kv.1) && kv.1 != "line_items" then
          dictSet acc kv.1 kv.2
        else acc) acc) ↔
      k' ∈ dictKeys acc ∨ (k' ∈ dictKeys l ∧ k' ≠ "line_items") := by
  induction l generalizing acc with
  | nil => simp [dictKeys]
  | cons kv t ih =>
      rw [List.foldl_cons, ih]
      by_cases h : (!(dictContains acc kv.1) && (kv.1 != "line_items")) = true
      · rw [if_pos h, mem_dictKeys_dictSet]
        rw [Bool.and_eq_true, bne_iff_ne, Bool.not_eq_true'] at h
        obtain ⟨h1, h2⟩ := h
        constructor
        · rintro ((hm | he) | ht)
          · exact Or.inl hm
          · subst he
            exact Or.inr ⟨by simp [dictKeys], h2⟩
          · exact Or.inr ⟨by simp [dictKeys]; right; simpa [dictKeys] using ht.1, ht.2⟩
        · rintro (hm | ⟨hmem, hne⟩)
          · exact Or.inl (Or.inl hm)
          · simp only [dictKeys, List.map_cons, List.mem_cons] at hmem
            rcases hmem with he | ht
            · exact Or.inl (Or.inr he)
            · exact Or.inr ⟨by simpa [dictKeys] using ht, hne⟩
      · rw [if_neg h]
        have h' : dictContains acc kv.1 = true ∨ kv.1 = "line_items" := by
          by_cases hc : dictContains acc kv.1 = true
          · exact Or.inl hc
          · right
            by_contra hne
            exact h (by simp [hc, hne])
        constructor
        · rintro (hm | ht)
          · exact Or.inl hm
          · exact Or.inr ⟨by simp [dictKeys]; right; simpa [dictKeys] using ht.1, ht.2⟩
        · rintro (hm | ⟨hmem, hne⟩)
          · exact Or.inl hm
          · simp only [dictKeys, List.map_cons, List.mem_cons] at hmem
            rcases hmem with he | ht
            · subst he
              rcases h' with hc | hli
              · exact Or.inl ((dictContains_iff _ _).mp hc)
              · exact absurd hli hne
            · exact Or.inr ⟨by simpa [dictKeys] using ht, hne⟩

theorem mem_dictKeys_filter_tax (d : Dict) (k' : String) :
    k' ∈ dictKeys (d.filter (fun kv => !(pyStartsWith (pyLower kv.1) "tax"))) ↔
      k' ∈ dictKeys d ∧ pyStartsWith (pyLower k') "tax" = false := by
  have h := mem_dictKeys_filter d (fun k => !(pyStartsWith (pyLower k) "tax")) k'
  simpa [Bool.not_eq_true'] using h

/-- **C1** (amended) — the Schema Normalizer's key set is *not* forced to the
schema's field set: the output keys are exactly the input keys minus
`account_number` and `tax`-prefixed keys, plus `patient_id` when the
account-number rename fires, plus the four `setdefault` keys and
`line_items`.  Unknown keys survive; schema keys other than the four
defaults and `line_items` are not inserted. -/
theorem or_absorb_left {b c d : Prop} : ((b ∧ c ∨ c) ∨ d) ↔ (c ∨ d) := by
  constructor
  · rintro ((⟨_, h⟩ | h) | h)
    · exact Or.inl h
    · exact Or.inl h
    · exact Or.inr h
  · rintro (h | h)
    · exact Or.inl (Or.inr h)
    · exact Or.inr h

theorem C1_theorem_normalize_keyset (data : Dict) (k : String) :
    k ∈ dictKeys (normalize_to_invoice_schema_v1 data) ↔
      ((k ∈ dictKeys data ∧ k ≠ "account_number"
          ∧ pyStartsWith (pyLower k) "tax" = false)
        ∨ (k = "patient_id" ∧ dictContains data "patient_id" = false
            ∧ pyTruthy (dictGetD data "account_number" .null) = true)
        ∨ k ∈ (["provider_name", "bed_id", "patient_phone", "patient_email",
                "line_items"] : List String)) := by
  simp only [normalize_to_invoice_schema_v1]
  rw [mem_dictKeys_dictSet, mem_keys_foldl_rest, mem_keys_foldl_preferred,
    dictContains_iff, mem_dictKeys_dictSetdefault, mem_dictKeys_dictSetdefault,
    mem_dictKeys_dictSetdefault, mem_dictKeys_dictSetdefault,
    mem_dictKeys_dictPop, mem_dictKeys_dictPop, mem_dictKeys_filter_tax]
  simp only [show dictKeys ([] : Dict) = [] from rfl, List.not_mem_nil, false_or,
    List.mem_cons, List.mem_singleton]
  have e1 : k = "tax_percent" → pyStartsWith (pyLower k) "tax" = true := by
    intro he; rw [he]; decide
  have e2 : k = "tax_amount" → pyStartsWith (pyLower k) "tax" = true := by
    intro he; rw [he]; decide
  have e3 : k = "patient_id" → pyStartsWith (pyLower k) "tax" = false := by
    intro he; rw [he]; decide
  have e4 : ¬(pyStartsWith (pyLower k) "tax" = true ∧ pyStartsWith (pyLower k) "tax" = false) := by
    simp
  by_cases hcond :
      (!(dictContains data "patient_id")
        && pyTruthy (dictGetD data "account_number" .null)) = true
  · rw [if_pos hcond]
    rw [Bool.and_eq_true, Bool.not_eq_true'] at hcond
    obtain ⟨hc1, hc2⟩ := hcond
    rw [mem_dictKeys_dictSet, mem_dictKeys_dictPop]
    revert e1 e2 e3 e4 hc1 hc2
    generalize (k ∈ dictKeys data) = A
    generalize (k ∈ invoice_preferred_keys) = B
    generalize pyStartsWith (pyLower k) "tax" = S
    generalize dictContains data "patient_id" = P
    generalize pyTruthy (dictGetD data "account_number" JVal.null) = T
    intro e1 e2 e3 e4 hc1 hc2
    rw [or_absorb_left]
    constructor
    · rintro (⟨hX, _⟩ | hli)
      · rcases hX with (((⟨⟨⟨⟨hA, hna⟩ | hpid, hS⟩, _⟩, _⟩ | h) | h) | h) | h
        · exact Or.inl ⟨hA, hna, hS⟩
        · exact Or.inr (Or.inl ⟨hpid, hc1, hc2⟩)
        · exact .inr <| .inr <| .inl h
        · exact .inr <| .inr <| .inr <| .inl h
        · exact .inr <| .inr <| .inr <| .inr <| .inl h
        · exact .inr <| .inr <| .inr <| .inr <| .inr <| .inl h
      · exact .inr <| .inr <| .inr <| .inr <| .inr <| .inr <| .inl hli
    · intro h
      by_cases hli : k = "line_items"
      · exact Or.inr hli
      · left
        refine ⟨?_, hli⟩
        rcases h with ⟨hA, hna, hS⟩ | ⟨hpid, _, _⟩ | h | h | h | h | h | hF
        · exact Or.inl (Or.inl (Or.inl (Or.inl
            ⟨⟨⟨Or.inl ⟨hA, hna⟩, hS⟩, fun he => e4 ⟨e1 he, hS⟩⟩,
              fun he => e4 ⟨e2 he, hS⟩⟩)))
        · exact Or.inl (Or.inl (Or.inl (Or.inl
            ⟨⟨⟨Or.inr hpid, e3 hpid⟩, fun he => e4 ⟨e1 he, e3 hpid⟩⟩,
              fun he => e4 ⟨e2 he, e3 hpid⟩⟩)))
        · exact Or.inl (Or.inl (Or.inl (Or.inr h)))
        · exact Or.inl (Or.inl (Or.inr h))
        · exact Or.inl (Or.inr h)
        · exact Or.inr h
        · exact absurd h hli
        · exact hF.elim
  · rw [if_neg hcond]
    have hc' : dictContains data "patient_id" = true
        ∨ pyTruthy (dictGetD data "account_number" .null) = false := by
      by_cases h : dictContains data "patient_id" = true
      · exact Or.inl h
      · right
        rw [Bool.not_eq_true] at h
        by_cases h2 : pyTruthy (dictGetD data "account_number" .null) = true
        · exact absurd (by rw [Bool.and_eq_true, Bool.not_eq_true']; exact ⟨h, h2⟩) hcond
        · rwa [Bool.not_eq_true] at h2
    have e5 : ¬(dictContains data "patient_id" = true
        ∧ dictContains data "patient_id" = false) := by simp
    have e6 : ¬(pyTruthy (dictGetD data "account_number" .null) = true
        ∧ pyTruthy (dictGetD data "account_number" .null) = false) := by simp
    rw [mem_dictKeys_dictPop]
    revert e1 e2 e3 e4 e5 e6 hc'
    generalize (k ∈ dictKeys data) = A
    generalize (k ∈ invoice_preferred_keys) = B
    generalize pyStartsWith (pyLower k) "tax" = S
    generalize dictContains data "patient_id" = P
    generalize pyTruthy (dictGetD data "account_number" JVal.null) = T
    intro e1 e2 e3 e4 hc' e5 e6
    rw [or_absorb_left]
    constructor
    · rintro (⟨hX, _⟩ | hli)
      · rcases hX with (((⟨⟨⟨⟨hA, hna⟩, hS⟩, _⟩, _⟩ | h) | h) | h) | h
        · exact Or.inl ⟨hA, hna, hS⟩
        · exact .inr <| .inr <| .inl h
        · exact .inr <| .inr <| .inr <| .inl h
        · exact .inr <| .inr <| .inr <| .inr <| .inl h
        · exact .inr <| .inr <| .inr <| .inr <| .inr <| .inl h
      · exact .inr <| .inr <| .inr <| .inr <| .inr <| .inr <| .inl hli
    · intro h
      by_cases hli : k = "line_items"
      · exact Or.inr hli
      · left
        refine ⟨?_, hli⟩
        rcases h with ⟨hA, hna, hS⟩ | ⟨hpid, hP, hT⟩ | h | h | h | h | h | hF
        · exact Or.inl (Or.inl (Or.inl (Or.inl
            ⟨⟨⟨⟨hA, hna⟩, hS⟩, fun he => e4 ⟨e1 he, hS⟩⟩,
              fun he => e4 ⟨e2 he, hS⟩⟩)))
        · rcases hc' with hcP | hcT
          · exact (e5 ⟨hcP, hP⟩).elim
          · exact (e6 ⟨hT, hcT⟩).elim
        · exact Or.inl (Or.inl (Or.inl (Or.inr h)))
        · exact Or.inl (Or.inl (Or.inr h))
        · exact Or.inl (Or.inr h)
        · exact Or.inr h
        · exact absurd h hli
        · exact hF.elim

/-- **C1** (counterexample) — the claim's exact key-set equality fails: an
unknown key `"foo"` survives normalization although it is not a schema
field, and the schema field `invoice_number` is *not* inserted as null when
absent from the input. -/
theorem C1_counterexample_normalize_keyset :
    ("foo" ∈ dictKeys (normalize_to_invoice_schema_v1 [("foo", JVal.str "bar")])
        ∧ "foo" ∉ invoice_schema_v1_fields)
    ∧ ("invoice_number" ∈ invoice_schema_v1_fields
        ∧ "invoice_number" ∉ dictKeys (normalize_to_invoice_schema_v1 [])) := by
  decide

/-! ## Date handling (src/parser_prototype.py lines 315–335)

`_parse_date` tries `datetime.strptime` with the formats
`%Y-%m-%d`, `%m/%d/%Y`, `%m/%d/%y`, `%d/%m/%Y`, `%d/%m/%y`,
`%d %b %Y`, `%d %B %Y` in order; the first that both matches the whole
string and yields a constructible calendar date wins; `norm_date` renders
it as ISO `YYYY-MM-DD`.  The model below follows CPython's `_strptime`
directive regexes (`%Y` = exactly four digits, `%m` = `1[0-2]|0[1-9]|[1-9]`,
`%d` = `3[01]|[12]\d|0[1-9]|[1-9]`, `%y` = two digits with the 69 pivot,
whitespace in the format = `\s+`), including its alternation order, and
`datetime`'s calendar validation. -/

/-- Python `str.isspace` characters (the `\s` class of `re` for `str`). -/
def pyIsSpace (c : Char) : Bool :=
  let n := c.toNat
  n == 32 || (9 ≤ n && n ≤ 13) || (28 ≤ n && n ≤ 31) || n == 0x85 || n == 0xa0 ||
    n == 0x1680 || (0x2000 ≤ n && n ≤ 0x200a) || n == 0x2028 || n == 0x2029 ||
    n == 0x202f || n == 0x205f || n == 0x3000

/-- `str.strip()` on a character list. -/
def pyStripChars (s : List Char) : List Char :=
  ((s.dropWhile pyIsSpace).reverse.dropWhile pyIsSpace).reverse

/-- Gregorian leap year, as in `datetime`. -/
def isLeap (y : Nat) : Bool :=
  y % 4 == 0 && (y % 100 != 0 || y % 400 == 0)

/-- Days in month, as in `datetime`. -/
def daysInMonth (y m : Nat) : Nat :=
  if m == 2 then (if isLeap y then 29 else 28)
  else if m == 4 || m == 6 || m == 9 || m == 11 then 30
  else 31

/-- `datetime.date(y, m, d)` constructibility (`MINYEAR = 1`,
`MAXYEAR = 9999`). -/
def dateValid (y m d : Nat) : Bool :=
  1 ≤ y && y ≤ 9999 && 1 ≤ m && m ≤ 12 && 1 ≤ d && d ≤ daysInMonth y m

/-- One directive (or literal) of a `strptime` format string. -/
inductive FmtTok where
  | Y4              -- %Y : exactly four digits
  | y2              -- %y : exactly two digits, 69 pivot
  | mon             -- %m : 1[0-2]|0[1-9]|[1-9]
  | day             -- %d : 3[01]|[12]\d|0[1-9]|[1-9]
  | monAbbr         -- %b : month abbreviation, case-insensitive
  | monFull         -- %B : full month name, case-insensitive
  | lit (c : Char)  -- literal character
  | ws              -- whitespace in the format: \s+

/-- Partially collected `strptime` fields. -/
structure DParts where
  y : Option Nat := none
  m : Option Nat := none
  d : Option Nat := none

def digitVal (c : Char) : Nat := c.toNat - 48

def asciiLower (c : Char) : Char :=
  if 65 ≤ c.toNat && c.toNat ≤ 90 then Char.ofNat (c.toNat + 32) else c

/-- Try to strip a case-insensitive keyword from the front. -/
def stripKeyword : List Char → List Char → Option (List Char)
  | [], s => some s
  | _ :: _, [] => none
  | k :: ks, c :: cs => if asciiLower c == k then stripKeyword ks cs else none

def monthAbbrs : List (List Char × Nat) :=
  [("jan".data, 1), ("feb".data, 2), ("mar".data, 3), ("apr".data, 4),
   ("may".data, 5), ("jun".data, 6), ("jul".data, 7), ("aug".data, 8),
   ("sep".data, 9), ("oct".data, 10), ("nov".data, 11), ("dec".data, 12)]

/-- Full month names, longest first as in `_strptime.__seqToRE`. -/
def monthFulls : List (List Char × Nat) :=
  [("september".data, 9), ("february".data, 2), ("november".data, 11),
   ("december".data, 12), ("january".data, 1), ("october".data, 10),
   ("august".data, 8), ("march".data, 3), ("april".data, 4),
   ("june".data, 6), ("july".data, 7), ("may".data, 5)]

/-- All ways one directive can match a prefix of the input, in the
alternation (preference) order of `_strptime`'s compiled regex. -/
def tokCands : FmtTok → List Char → DParts → List (DParts × List Char)
  | .Y4, c1 :: c2 :: c3 :: c4 :: rest, p =>
      if c1.isDigit && c2.isDigit && c3.isDigit && c4.isDigit then
        [({ p with y := some (((digitVal c1 * 10 + digitVal c2) * 10
              + digitVal c3) * 10 + digitVal c4) }, rest)]
      else []
  | .Y4, _, _ => []
  | .y2, c1 :: c2 :: rest, p =>
      if c1.isDigit && c2.isDigit then
        let v := digitVal c1 * 10 + digitVal c2
        -- CPython pivot: 0-68 -> 2000s, 69-99 -> 1900s
        [({ p with y := some (if v ≤ 68 then 2000 + v else 1900 + v) }, rest)]
      else []
  | .y2, _, _ => []
  | .mon, s, p =>
      (match s with
        | c1 :: c2 :: rest =>
            if c1 == '1' && (c2 == '0' || c2 == '1' || c2 == '2') then
              [({ p with m := some (10 + digitVal c2) }, rest)]
            else if c1 == '0' && c2.isDigit && c2 != '0' then
              [({ p with m := some (digitVal c2) }, rest)]
            else []
        | _ => []) ++
      (match s with
        | c1 :: rest =>
            if c1.isDigit && c1 != '0' then
              [({ p with m := some (digitVal c1) }, rest)]
            else []
        | _ => [])
  | .day, s, p =>
      (match s with
        | c1 :: c2 :: rest =>
            if c1 == '3' && (c2 == '0' || c2 == '1') then
              [({ p with d := some (30 + digitVal c2) }, rest)]
            else if (c1 == '1' || c1 == '2') && c2.isDigit then
              [({ p with d := some (digitVal c1 * 10 + digitVal c2) }, rest)]
            else if c1 == '0' && c2.isDigit && c2 != '0' then
              [({ p with d := some (digitVal c2) }, rest)]
            else []
        | _ => []) ++
      (match s with
        | c1 :: rest =>
            if c1.isDigit && c1 != '0' then
              [({ p with d := some (digitVal c1) }, rest)]
            else []
        | _ => [])
  | .monAbbr, s, p =>
      monthAbbrs.foldr
        (fun km acc =>
          match stripKeyword km.1 s with
          | some rest => ({ p with m := some km.2 }, rest) :: acc
          | none => acc) []
  | .monFull, s, p =>
      monthFulls.foldr
        (fun km acc =>
          match stripKeyword km.1 s with
          | some rest => ({ p with m := some km.2 }, rest) :: acc
          | none => acc) []
  | .lit c, c1 :: rest, p => if c1 == c then [(p, rest)] else []
  | .lit _, [], _ => []
  | .ws, c1 :: rest, p =>
      if pyIsSpace c1 then [(p, rest.dropWhile pyIsSpace)] else []
  | .ws, [], _ => []

/-- Backtracking match of a whole format against the whole string. -/
def matchToks : List FmtTok → List Char → DParts → Option DParts
  | [], s, p => if s.isEmpty then some p else none
  | t :: ts, s, p =>
      (tokCands t s p).findSome? (fun c => matchToks ts c.2 c.1)

/-- `datetime.strptime(s, fmt).date()` for one format: full match plus
calendar validation (defaults year 1900, month 1, day 1 as in CPython). -/
def strptimeDate (toks : List FmtTok) (s : List Char) : Option (Nat × Nat × Nat) :=
  match matchToks toks s {} with
  | some p =>
      let y := p.y.getD 1900
      let m := p.m.getD 1
      let d := p.d.getD 1
      if dateValid y m d then some (y, m, d) else none
  | none => none

/-- The format list of `_parse_date`, in order. -/
def parseDateFmts : List (List FmtTok) :=
  [ [.Y4, .lit '-', .mon, .lit '-', .day],          -- %Y-%m-%d
    [.mon, .lit '/', .day, .lit '/', .Y4],          -- %m/%d/%Y
    [.mon, .lit '/', .day, .lit '/', .y2],          -- %m/%d/%y
    [.day, .lit '/', .mon, .lit '/', .Y4],          -- %d/%m/%Y
    [.day, .lit '/', .mon, .lit '/', .y2],          -- %d/%m/%y
    [.day, .ws, .monAbbr, .ws, .Y4],                -- %d %b %Y
    [.day, .ws, .monFull, .ws, .Y4] ]               -- %d %B %Y

/-- `_parse_date` from `src/parser_prototype.py`: strip, then try each
format in order, returning the first that parses to a valid date. -/
def _parse_date (s : String) : Option (Nat × Nat × Nat) :=
  let t := pyStripChars s.data
  parseDateFmts.findSome? (fun f => strptimeDate f t)

def padNat (width n : Nat) : String :=
  let digits := toString n
  String.mk (List.replicate (width - digits.length) '0') ++ digits

/-- `date.isoformat()`. -/
def isoFormat : Nat × Nat × Nat → String
  | (y, m, d) => padNat 4 y ++ "-" ++ padNat 2 m ++ "-" ++ padNat 2 d

/-- `norm_date` from `src/parser_prototype.py`: ISO string of the parsed
date, `None` when unparseable (and for falsy input). -/
def norm_date (s : String) : Option String :=
  if s != "" then (_parse_date s).map isoFormat else none

/-- **C9** — date coercion maps `"2020-03-30"`, `"03/30/2020"` and the
day-first `"30/03/2020"` (unambiguous because 30 > 12 rules out `%m/%d`)
all to ISO `"2020-03-30"`. -/
theorem C9_date_coercion_scenarios :
    norm_date "2020-03-30" = some "2020-03-30"
    ∧ norm_date "03/30/2020" = some "2020-03-30"
    ∧ norm_date "30/03/2020" = some "2020-03-30" := by
  decide

/-! ## `_collapse_layout_keep_lines` (src/parser_prototype.py lines 120–142)

```python
txt = re.sub(r"\n{3,}", "\n\n", txt)
sentinel = " \u2028 "
txt = txt.replace("\r", "\n").replace("\n", sentinel)
txt = re.sub(r"[ \t]{2,}", " ", txt)
txt = txt.replace(sentinel, "\n")
txt = "\n".join(line.strip() for line in txt.splitlines())
```
-/

/-- Length of the run of `c` at the head of the list. -/
def countRun (c : Char) : List Char → Nat
  | x :: xs => if x == c then 1 + countRun c xs else 0
  | [] => 0

/-- `re.sub(r"\n{3,}", "\n\n", ·)`: leftmost-greedy replacement of runs of
three or more newlines by exactly two.  (`fuel` only forces structural
recursion; the wrappers pass enough for it never to run out.) -/
def subBlankRunsGo : Nat → List Char → List Char
  | 0, s => s
  | _ + 1, [] => []
  | fuel + 1, c :: rest =>
      if c == '\n' then
        let n := 1 + countRun '\n' rest
        if 3 ≤ n then '\n' :: '\n' :: subBlankRunsGo fuel (rest.drop (n - 1))
        else c :: subBlankRunsGo fuel rest
      else c :: subBlankRunsGo fuel rest

def subBlankRuns (s : List Char) : List Char :=
  subBlankRunsGo s.length s

/-- `re.sub(r"[ \t]{2,}", " ", ·)`: leftmost-greedy collapse of runs of two
or more spaces/tabs to one space. -/
def collapseSpaceTabRunsGo : Nat → List Char → List Char
  | 0, s => s
  | _ + 1, [] => []
  | fuel + 1, c :: rest =>
      if c == ' ' || c == '\t' then
        let n := 1 + (rest.takeWhile (fun x => x == ' ' || x == '\t')).length
        if 2 ≤ n then ' ' :: collapseSpaceTabRunsGo fuel (rest.drop (n - 1))
        else c :: collapseSpaceTabRunsGo fuel rest
      else c :: collapseSpaceTabRunsGo fuel rest

def collapseSpaceTabRuns (s : List Char) : List Char :=
  collapseSpaceTabRunsGo s.length s

/-- `str.replace(pat, rep)` (non-empty pattern): non-overlapping
left-to-right replacement of every occurrence. -/
def replaceGo (pat rep : List Char) : Nat → List Char → List Char
  | 0, s => s
  | _ + 1, [] => []
  | fuel + 1, c :: rest =>
      if pat.isPrefixOf (c :: rest) then
        rep ++ replaceGo pat rep fuel (rest.drop (pat.length - 1))
      else c :: replaceGo pat rep fuel rest

def listReplace (pat rep s : List Char) : List Char :=
  match pat with
  | [] => s
  | _ :: _ => replaceGo pat rep s.length s

/-- The line-boundary characters of `str.splitlines`. -/
def isLineBreak (c : Char) : Bool :=
  c == '\n' || c == '\r' || c == '\x0b' || c == '\x0c' ||
    c == '\x1c' || c == '\x1d' || c == '\x1e' || c == '\x85' ||
    c == '\u2028' || c == '\u2029'

def splitlinesGo : Nat → List Char → List Char → List (List Char)
  | 0, acc, s => [acc.reverse ++ s]
  | _ + 1, acc, [] => [acc.reverse]
  | fuel + 1, acc, c :: cs =>
      if isLineBreak c then
        if c == '\r' && cs.headD ' ' == '\n' then
          acc.reverse :: (if cs.tail.isEmpty then [] else splitlinesGo fuel [] cs.tail)
        else
          acc.reverse :: (if cs.isEmpty then [] else splitlinesGo fuel [] cs)
      else splitlinesGo fuel (c :: acc) cs

/-- `str.splitlines()`: split at line boundaries (`\r\n` counting as one),
with no trailing empty line for a trailing boundary. -/
def pySplitlines (s : List Char) : List (List Char) :=
  if s.isEmpty then [] else splitlinesGo s.length [] s

/-- `_collapse_layout_keep_lines` from `src/parser_prototype.py`. -/
def _collapse_layout_keep_lines (txt : List Char) : List Char :=
  let txt := subBlankRuns txt
  -- temporarily mark newlines so we can collapse spaces safely
  let sentinel : List Char := [' ', '\u2028', ' ']
  let txt := listReplace ['\r'] ['\n'] txt
  let txt := listReplace ['\n'] sentinel txt
  -- collapse runs of tabs/spaces
  let txt := collapseSpaceTabRuns txt
  -- restore newlines
  let txt := listReplace sentinel ['\n'] txt
  -- trim each line
  List.intercalate ['\n'] ((pySplitlines txt).map pyStripChars)

/-- **C7** — the generic collapse normalizer is *not* idempotent: on
`"a\n \n \nb"` (two whitespace-only lines) the first pass outputs
`"a\n\n\nb"` — the blank-run collapse ran before the per-line strip turned
the space-only lines into empty ones — and a second pass collapses that to
`"a\n\nb"`. -/
theorem C7_collapse_not_idempotent :
    _collapse_layout_keep_lines (_collapse_layout_keep_lines "a\n \n \nb".data)
        ≠ _collapse_layout_keep_lines "a\n \n \nb".data
    ∧ _collapse_layout_keep_lines "a\n \n \nb".data = "a\n\n\nb".data
    ∧ _collapse_layout_keep_lines "a\n\n\nb".data = "a\n\nb".data := by
  decide

/-! ## Template fingerprinting and classification (src/template_detector.py)

A fingerprint is a Python dict with the fixed keys produced by
`detect_template_signature`; averaged profiles built by
`build_template_fps.py` carry only the seven base numeric keys plus
`top_fonts`.  We model the dict as a structure of optional fields
(`none` = key absent), so `fp.get(k, 0.0)` is `(·).getD 0`.  Python float
arithmetic (including `math.sqrt`) is modelled as exact real arithmetic. -/

structure Fingerprint where
  page_count : Option ℚ := none
  avg_width : Option ℚ := none
  avg_height : Option ℚ := none
  header_text_density : Option ℚ := none
  footer_text_density : Option ℚ := none
  body_text_density : Option ℚ := none
  avg_font_size : Option ℚ := none
  kw_hot_springs : Option ℚ := none
  kw_rose_petal : Option ℚ := none
  kw_white_petal : Option ℚ := none
  kw_clinic : Option ℚ := none
  kw_hospital : Option ℚ := none
  kw_consent : Option ℚ := none
  kw_hipaa : Option ℚ := none
  kw_authorization : Option ℚ := none
  top_fonts : Option (List String) := none

/-- `_fp_to_vector` from `src/template_detector.py`: seven base slots
followed by the eight keyword slots, absent keys reading `0.0`. -/
def _fp_to_vector (fp : Fingerprint) : List ℚ :=
  [fp.page_count.getD 0, fp.avg_width.getD 0, fp.avg_height.getD 0,
   fp.header_text_density.getD 0, fp.footer_text_density.getD 0,
   fp.body_text_density.getD 0, fp.avg_font_size.getD 0] ++
  [fp.kw_hot_springs.getD 0, fp.kw_rose_petal.getD 0, fp.kw_white_petal.getD 0,
   fp.kw_clinic.getD 0, fp.kw_hospital.getD 0, fp.kw_consent.getD 0,
   fp.kw_hipaa.getD 0, fp.kw_authorization.getD 0]

/-- `sum(a * b for a, b in zip(v1, v2))`. -/
def dotProd (v1 v2 : List ℚ) : ℚ :=
  (List.zipWith (· * ·) v1 v2).sum

/-- `sum(a * a for a in v)` (the squared Euclidean norm). -/
def sumSq (v : List ℚ) : ℚ :=
  (v.map (fun a => a * a)).sum

/-- `_cosine_similarity` from `src/template_detector.py` over exact reals:
`dot / (sqrt (Σ a²) * sqrt (Σ b²))`, `0.0` when either norm is zero. -/
noncomputable def _cosine_similarity (v1 v2 : List ℚ) : ℝ :=
  let norm1 := Real.sqrt ((sumSq v1 : ℚ) : ℝ)
  let norm2 := Real.sqrt ((sumSq v2 : ℚ) : ℝ)
  if norm1 = 0 ∨ norm2 = 0 then 0
  else ((dotProd v1 v2 : ℚ) : ℝ) / (norm1 * norm2)

/-- `max(0.0, min(1.0, score))`. -/
noncomputable def clamp01 (x : ℝ) : ℝ := max 0 (min 1 x)

open Classical in
/-- `fingerprint_similarity` from `src/template_detector.py`: cosine over
the fixed vectors, `+0.05` when the primary fonts match, clamp, `* 0.5`
when none of the identity keywords (`kw_hot_springs`, `kw_rose_petal`,
`kw_white_petal`) of the *document* (`fp1`) is positive, `+0.5` when any
consent keyword (`kw_consent`, `kw_hipaa`, `kw_authorization`) of `fp1` is
positive, final clamp. -/
noncomputable def fingerprint_similarity (fp1 fp2 : Fingerprint) : ℝ :=
  let v1 := _fp_to_vector fp1
  let v2 := _fp_to_vector fp2
  let base_sim := _cosine_similarity v1 v2
  let fonts1 := fp1.top_fonts.getD []
  let fonts2 := fp2.top_fonts.getD []
  let font_bonus : ℝ :=
    if fonts1 ≠ [] ∧ fonts2 ≠ [] ∧ fonts1.head? = fonts2.head? then 0.05 else 0
  let score := clamp01 (base_sim + font_bonus)   -- initial clamp
  -- 1) 50% PENALTY if no hospital name / title keywords
  let has_any_name := 0 < fp1.kw_hot_springs.getD 0 ∨ 0 < fp1.kw_rose_petal.getD 0
      ∨ 0 < fp1.kw_white_petal.getD 0
  let score := if has_any_name then score else score * 0.5
  -- 2) +0.50 BONUS if this document looks like a consent form
  let has_consent := 0 < fp1.kw_consent.getD 0 ∨ 0 < fp1.kw_hipaa.getD 0
      ∨ 0 < fp1.kw_authorization.getD 0
  let score := if has_consent then score + 0.5 else score
  clamp01 score   -- final clamp

open Classical in
/-- Modelled from the spec: the score a pair "would receive without that
penalty" (claim C3) — `fingerprint_similarity` with the identity-keyword
penalty step removed and everything else identical.  This is the
comparison definition for the refinement claim, not code of the repo. -/
noncomputable def fingerprint_similarity_nopenalty (fp1 fp2 : Fingerprint) : ℝ :=
  let v1 := _fp_to_vector fp1
  let v2 := _fp_to_vector fp2
  let base_sim := _cosine_similarity v1 v2
  let fonts1 := fp1.top_fonts.getD []
  let fonts2 := fp2.top_fonts.getD []
  let font_bonus : ℝ :=
    if fonts1 ≠ [] ∧ fonts2 ≠ [] ∧ fonts1.head? = fonts2.head? then 0.05 else 0
  let score := clamp01 (base_sim + font_bonus)
  let has_consent := 0 < fp1.kw_consent.getD 0 ∨ 0 < fp1.kw_hipaa.getD 0
      ∨ 0 < fp1.kw_authorization.getD 0
  let score := if has_consent then score + 0.5 else score
  clamp01 score

open Classical in
/-- One iteration of the `for template_id, fp in known.items()` loop of
`classify_template`. -/
noncomputable def classifyStep (signature : Fingerprint)
    (acc : Option String × ℝ) (p : String × Fingerprint) : Option String × ℝ :=
  let score := fingerprint_similarity signature p.2
  if score > acc.2 then (some p.1, score) else acc

open Classical in
/-- `classify_template` from `src/template_detector.py` (the store is
passed explicitly; the Python default `threshold=0.85`).  With well-formed
fingerprints `fingerprint_similarity` is total, so the `except: continue`
guard never fires and the `best_id is None` fallback is only reachable for
an empty store. -/
noncomputable def classify_template (signature : Fingerprint) (threshold : ℝ)
    (known : List (String × Fingerprint)) : String × ℝ × Bool :=
  if known.isEmpty then ("unknown", 0, true)
  else
    let r := known.foldl (classifyStep signature) (none, -1)
    match r.1 with
    | none => ("unknown", 0, true)
    | some best_id => (best_id, r.2, if r.2 < threshold then true else false)

theorem sumSq_nonneg (v : List ℚ) : 0 ≤ sumSq v := by
  unfold sumSq
  induction v with
  | nil => simp
  | cons a t ih =>
      rw [List.map_cons, List.sum_cons]
      have := mul_self_nonneg a
      linarith

theorem dotProd_self_eq_sumSq (v : List ℚ) : dotProd v v = sumSq v := by
  unfold dotProd sumSq
  induction v with
  | nil => rfl
  | cons a t ih => simp [List.zipWith_cons_cons, ih]

theorem clamp01_nonneg (x : ℝ) : 0 ≤ clamp01 x := le_max_left 0 _

theorem clamp01_le_one (x : ℝ) : clamp01 x ≤ 1 :=
  max_le zero_le_one (min_le_left 1 x)

theorem clamp01_of_bounds {x : ℝ} (h0 : 0 ≤ x) (h1 : x ≤ 1) : clamp01 x = x := by
  unfold clamp01
  rw [min_eq_right h1, max_eq_right h0]

/-- Cosine similarity of a nonzero vector with itself is exactly `1`. -/
theorem cosine_self_eq_one {v : List ℚ} (h : sumSq v ≠ 0) :
    _cosine_similarity v v = 1 := by
  unfold _cosine_similarity
  have h0 : (0 : ℝ) ≤ ((sumSq v : ℚ) : ℝ) := by exact_mod_cast sumSq_nonneg v
  have hne : ((sumSq v : ℚ) : ℝ) ≠ 0 := by exact_mod_cast h
  have hsq : Real.sqrt ((sumSq v : ℚ) : ℝ) ≠ 0 := by
    rw [ne_eq, Real.sqrt_eq_zero h0]
    exact hne
  rw [if_neg (by push_neg; exact ⟨hsq, hsq⟩)]
  rw [Real.mul_self_sqrt h0, dotProd_self_eq_sumSq]
  exact div_self hne

theorem fingerprint_similarity_nonneg (fp1 fp2 : Fingerprint) :
    0 ≤ fingerprint_similarity fp1 fp2 := by
  unfold fingerprint_similarity
  exact clamp01_nonneg _

theorem fingerprint_similarity_le_one (fp1 fp2 : Fingerprint) :
    fingerprint_similarity fp1 fp2 ≤ 1 := by
  unfold fingerprint_similarity
  exact clamp01_le_one _

theorem foldl_classifyStep_snd (sig : Fingerprint)
    (l : List (String × Fingerprint)) (acc : Option String × ℝ) :
    acc.2 ≤ (l.foldl (classifyStep sig) acc).2
    ∧ ∀ q ∈ l, fingerprint_similarity sig q.2 ≤ (l.foldl (classifyStep sig) acc).2 := by
  induction l generalizing acc with
  | nil => simp
  | cons p t ih =>
      rw [List.foldl_cons]
      obtain ⟨ih1, ih2⟩ := ih (classifyStep sig acc p)
      have hstep : acc.2 ≤ (classifyStep sig acc p).2
          ∧ fingerprint_similarity sig p.2 ≤ (classifyStep sig acc p).2 := by
        unfold classifyStep
        by_cases h : fingerprint_similarity sig p.2 > acc.2
        · rw [if_pos h]
          exact ⟨le_of_lt h, le_refl _⟩
        · rw [if_neg h]
          exact ⟨le_refl _, le_of_not_lt h⟩
      refine ⟨le_trans hstep.1 ih1, ?_⟩
      intro q hq
      rcases List.mem_cons.mp hq with he | ht
      · subst he
        exact le_trans hstep.2 ih1
      · exact ih2 q ht

theorem foldl_classifyStep_fst (sig : Fingerprint)
    (l : List (String × Fingerprint)) (acc : Option String × ℝ) :
    (l.foldl (classifyStep sig) acc) = acc
    ∨ ∃ p ∈ l, (l.foldl (classifyStep sig) acc)
        = (some p.1, fingerprint_similarity sig p.2) := by
  induction l generalizing acc with
  | nil => simp
  | cons p t ih =>
      rw [List.foldl_cons]
      rcases ih (classifyStep sig acc p) with h | ⟨q, hq, h⟩
      · rw [h]
        unfold classifyStep
        by_cases hc : fingerprint_similarity sig p.2 > acc.2
        · rw [if_pos hc]
          exact Or.inr ⟨p, List.mem_cons_self .., rfl⟩
        · rw [if_neg hc]
          exact Or.inl rfl
      · exact Or.inr ⟨q, List.mem_cons_of_mem _ hq, h⟩

/-- **C3** (amended) — when the document's identity-keyword slots are all
zero *and* its consent-keyword slots are also all zero, the similarity is
exactly half the no-penalty score; (the consent `+0.5` bonus is applied
after the halving, which breaks the exact-half relation whenever a consent
keyword is present — see the counterexample). -/
theorem C3_theorem_half_penalty (fp1 fp2 : Fingerprint)
    (h1 : fp1.kw_hot_springs.getD 0 = 0) (h2 : fp1.kw_rose_petal.getD 0 = 0)
    (h3 : fp1.kw_white_petal.getD 0 = 0)
    (h4 : fp1.kw_consent.getD 0 = 0) (h5 : fp1.kw_hipaa.getD 0 = 0)
    (h6 : fp1.kw_authorization.getD 0 = 0) :
    fingerprint_similarity fp1 fp2
      = 0.5 * fingerprint_similarity_nopenalty fp1 fp2 := by
  unfold fingerprint_similarity fingerprint_similarity_nopenalty
  have hname : ¬(0 < fp1.kw_hot_springs.getD 0 ∨ 0 < fp1.kw_rose_petal.getD 0
      ∨ 0 < fp1.kw_white_petal.getD 0) := by
    rw [h1, h2, h3]; simp
  have hcons : ¬(0 < fp1.kw_consent.getD 0 ∨ 0 < fp1.kw_hipaa.getD 0
      ∨ 0 < fp1.kw_authorization.getD 0) := by
    rw [h4, h5, h6]; simp
  simp only [if_neg hname, if_neg hcons]
  set t := clamp01 (_cosine_similarity (_fp_to_vector fp1) (_fp_to_vector fp2) +
    if fp1.top_fonts.getD [] ≠ [] ∧ fp2.top_fonts.getD [] ≠ [] ∧
        (fp1.top_fonts.getD []).head? = (fp2.top_fonts.getD []).head? then 0.05 else 0)
    with ht
  have hb0 : 0 ≤ t := ht ▸ clamp01_nonneg _
  have hb1 : t ≤ 1 := ht ▸ clamp01_le_one _
  rw [clamp01_of_bounds hb0 hb1,
    clamp01_of_bounds (by positivity) (by nlinarith)]
  ring

/-- **C3** (witness). -/
theorem C3_theorem_half_penalty_witness :
    fingerprint_similarity { page_count := some 1 } { page_count := some 2 }
      = 0.5 * fingerprint_similarity_nopenalty
          { page_count := some 1 } { page_count := some 2 } :=
  C3_theorem_half_penalty { page_count := some 1 } { page_count := some 2 }
    rfl rfl rfl rfl rfl rfl

theorem sqrt_25_eq_5 : Real.sqrt ((25 : ℚ) : ℝ) = 5 := by
  rw [show ((25 : ℚ) : ℝ) = (5 : ℝ) ^ 2 by norm_num]
  exact Real.sqrt_sq (by norm_num)

/-- **C3** (counterexample) — for the pair
`fp1 = {page_count: 3, kw_consent: 4}`, `fp2 = {page_count: 1}` the
identity-keyword slots of the document are all zero, yet the similarity is
`0.8` while the no-penalty score is `1.0`: the `+0.5` consent bonus lands
after the halving, so the score is not half of `1.0`. -/
theorem C3_counterexample_half_penalty :
    (({ page_count := some 3, kw_consent := some 4 } : Fingerprint).kw_hot_springs.getD 0 = 0
      ∧ ({ page_count := some 3, kw_consent := some 4 } : Fingerprint).kw_rose_petal.getD 0 = 0
      ∧ ({ page_count := some 3, kw_consent := some 4 } : Fingerprint).kw_white_petal.getD 0 = 0)
    ∧ fingerprint_similarity { page_count := some 3, kw_consent := some 4 }
        { page_count := some 1 } = 0.8
    ∧ fingerprint_similarity_nopenalty { page_count := some 3, kw_consent := some 4 }
        { page_count := some 1 } = 1
    ∧ (0.8 : ℝ) ≠ 0.5 * 1 := by
  have hsum : sumSq (_fp_to_vector { page_count := some 3, kw_consent := some 4 }) = 25 := by
    simp [sumSq, _fp_to_vector]
    norm_num
  have hsumB : sumSq (_fp_to_vector { page_count := some 1 }) = 1 := by
    simp [sumSq, _fp_to_vector]
  have hdot : dotProd (_fp_to_vector { page_count := some 3, kw_consent := some 4 })
      (_fp_to_vector { page_count := some 1 }) = 3 := by
    simp [dotProd, _fp_to_vector]
  have hcos : _cosine_similarity
      (_fp_to_vector { page_count := some 3, kw_consent := some 4 })
      (_fp_to_vector { page_count := some 1 }) = 3 / 5 := by
    unfold _cosine_similarity
    rw [hsum, hsumB, hdot, sqrt_25_eq_5, show ((1 : ℚ) : ℝ) = 1 by norm_num,
      Real.sqrt_one]
    rw [if_neg (by norm_num)]
    norm_num
  refine ⟨⟨rfl, rfl, rfl⟩, ?_, ?_, by norm_num⟩
  · simp only [fingerprint_similarity]
    rw [hcos]
    norm_num [clamp01, min_def, max_def]
  · simp only [fingerprint_similarity_nopenalty]
    rw [hcos]
    norm_num [clamp01, min_def, max_def]

/-- If the vectors coincide (and are nonzero) and the document carries an
identity keyword, the adjusted similarity is exactly `1`. -/
theorem fingerprint_similarity_of_vec_eq (fp1 fp2 : Fingerprint)
    (hvec : _fp_to_vector fp1 = _fp_to_vector fp2)
    (hnz : sumSq (_fp_to_vector fp1) ≠ 0)
    (hname : 0 < fp1.kw_hot_springs.getD 0 ∨ 0 < fp1.kw_rose_petal.getD 0
      ∨ 0 < fp1.kw_white_petal.getD 0) :
    fingerprint_similarity fp1 fp2 = 1 := by
  simp only [fingerprint_similarity]
  rw [hvec, cosine_self_eq_one (hvec ▸ hnz)]
  split_ifs with h1 h2 h3 <;> norm_num [clamp01, min_def, max_def]

/-- **C5** (amended) — a document whose feature vector equals a stored
profile's vector exactly (and is nonzero) has base cosine similarity
exactly `1.0`; and classification then returns `is_unforeseen = false`
*provided* the document has at least one positive identity-keyword slot —
without one, the 50% penalty drops the adjusted score to at most `0.5 +`
consent bonus, and the counterexample shows `is_unforeseen = true`. -/
theorem C5_theorem_exact_match (sig profile : Fingerprint) (id : String)
    (known : List (String × Fingerprint))
    (hvec : _fp_to_vector sig = _fp_to_vector profile)
    (hnz : sumSq (_fp_to_vector sig) ≠ 0) :
    _cosine_similarity (_fp_to_vector sig) (_fp_to_vector profile) = 1
    ∧ ((0 < sig.kw_hot_springs.getD 0 ∨ 0 < sig.kw_rose_petal.getD 0
          ∨ 0 < sig.kw_white_petal.getD 0) →
        (id, profile) ∈ known →
        (classify_template sig 0.85 known).2.2 = false) := by
  constructor
  · rw [hvec]
    exact cosine_self_eq_one (hvec ▸ hnz)
  · intro hname hmem
    have hsim : fingerprint_similarity sig profile = 1 :=
      fingerprint_similarity_of_vec_eq sig profile hvec hnz hname
    match known, hmem with
    | p :: t, hmem =>
      have h2 := (foldl_classifyStep_snd sig (p :: t) (none, -1)).2 (id, profile) hmem
      rw [hsim] at h2
      simp only [classify_template, List.isEmpty_cons, Bool.false_eq_true,
        if_false]
      rcases foldl_classifyStep_fst sig (p :: t) (none, -1) with he | ⟨q, _, he⟩
      · rw [he] at h2
        norm_num at h2
      · rw [he] at h2 ⊢
        have hge : ¬(fingerprint_similarity sig q.2 < (0.85 : ℝ)) := by linarith
        simp [hge]

/-- **C5** (witness). -/
theorem C5_theorem_exact_match_witness :
    _cosine_similarity
        (_fp_to_vector ({ page_count := some 1, kw_hot_springs := some 2 } : Fingerprint))
        (_fp_to_vector ({ page_count := some 1, kw_hot_springs := some 2 } : Fingerprint)) = 1
    ∧ (classify_template { page_count := some 1, kw_hot_springs := some 2 } 0.85
        [("T1_hot_springs", { page_count := some 1, kw_hot_springs := some 2 })]).2.2
        = false := by
  have h := C5_theorem_exact_match
    { page_count := some 1, kw_hot_springs := some 2 }
    { page_count := some 1, kw_hot_springs := some 2 }
    "T1_hot_springs"
    [("T1_hot_springs", { page_count := some 1, kw_hot_springs := some 2 })]
    rfl (by simp [sumSq, _fp_to_vector]; norm_num)
  exact ⟨h.1, h.2 (Or.inl (by norm_num)) (List.mem_singleton.mpr rfl)⟩

/-- **C5** (counterexample) — a document whose vector exactly equals the
stored profile's (nonzero) vector but which carries no identity keyword is
penalized to `0.5 < 0.85`, so classification returns
`is_unforeseen = true`, contradicting the claim's unconditional
`is_unforeseen = false`. -/
theorem C5_counterexample_exact_match :
    (_fp_to_vector ({ page_count := some 1 } : Fingerprint)
        = _fp_to_vector ({ page_count := some 1 } : Fingerprint))
    ∧ sumSq (_fp_to_vector ({ page_count := some 1 } : Fingerprint)) ≠ 0
    ∧ (classify_template { page_count := some 1 } 0.85
        [("t1", { page_count := some 1 })]).2.2 = true := by
  refine ⟨rfl, by simp [sumSq, _fp_to_vector], ?_⟩
  have hcos : _cosine_similarity (_fp_to_vector ({ page_count := some 1 } : Fingerprint))
      (_fp_to_vector ({ page_count := some 1 } : Fingerprint)) = 1 :=
    cosine_self_eq_one (by simp [sumSq, _fp_to_vector])
  have hsim : fingerprint_similarity { page_count := some 1 } { page_count := some 1 }
      = 0.5 := by
    simp only [fingerprint_similarity]
    rw [hcos]
    norm_num [clamp01, min_def, max_def]
  simp only [classify_template, List.isEmpty_cons, Bool.false_eq_true, if_false,
    List.foldl_cons, List.foldl_nil, classifyStep]
  rw [hsim]
  rw [if_pos (by norm_num : (0.5 : ℝ) > -1)]
  simp only []
  rw [if_pos (by norm_num : (0.5 : ℝ) < 0.85)]

/-- **C8** — with an empty profile store, classification returns
`(\"unknown\", 0.0, True)`; with a nonempty store (well-formed profiles, so
every similarity is a valid score and the defensive `best_id is None`
branch cannot fire) it returns a stored profile achieving the maximal
similarity, and `is_unforeseen` holds exactly when that winning score is
below the fixed `0.85` threshold. -/
theorem C8_classify_empty_and_best (sig : Fingerprint)
    (known : List (String × Fingerprint)) :
    classify_template sig 0.85 [] = ("unknown", 0, true)
    ∧ (known ≠ [] →
        ∃ fp, ((classify_template sig 0.85 known).1, fp) ∈ known
          ∧ (classify_template sig 0.85 known).2.1 = fingerprint_similarity sig fp
          ∧ (∀ q ∈ known, fingerprint_similarity sig q.2
              ≤ (classify_template sig 0.85 known).2.1)
          ∧ ((classify_template sig 0.85 known).2.2 = true
              ↔ (classify_template sig 0.85 known).2.1 < 0.85)) := by
  constructor
  · simp [classify_template]
  · intro hne
    match known, hne with
    | p :: t, hne =>
      rcases foldl_classifyStep_fst sig (p :: t) (none, -1) with he | ⟨q, hq, he⟩
      · exfalso
        have hmax := (foldl_classifyStep_snd sig (p :: t) (none, -1)).2 p
          (List.mem_cons_self ..)
        rw [he] at hmax
        have := fingerprint_similarity_nonneg sig p.2
        simp only [] at hmax
        linarith
      · have hclass : classify_template sig 0.85 (p :: t)
            = (q.1, fingerprint_similarity sig q.2,
                if fingerprint_similarity sig q.2 < (0.85 : ℝ) then true else false) := by
          simp only [classify_template, List.isEmpty_cons, Bool.false_eq_true,
            if_false]
          rw [he]
        refine ⟨q.2, ?_, ?_, ?_, ?_⟩
        · rw [hclass]
          exact hq
        · rw [hclass]
        · intro q' hq'
          rw [hclass]
          have hmax := (foldl_classifyStep_snd sig (p :: t) (none, -1)).2 q' hq'
          rw [he] at hmax
          exact hmax
        · rw [hclass]
          by_cases hc : fingerprint_similarity sig q.2 < (0.85 : ℝ)
          · simp [hc]
          · simp [hc]

/-- **C8** (witness). -/
theorem C8_classify_empty_and_best_witness :
    classify_template { page_count := some 1 } 0.85 [] = ("unknown", 0, true)
    ∧ ∃ fp, ((classify_template { page_count := some 1 } 0.85
          [("t1", { page_count := some 1 })]).1, fp) ∈ [("t1", { page_count := some 1 })]
        ∧ (classify_template { page_count := some 1 } 0.85
            [("t1", { page_count := some 1 })]).2.1
            = fingerprint_similarity { page_count := some 1 } fp
        ∧ (∀ q ∈ [("t1", ({ page_count := some 1 } : Fingerprint))],
            fingerprint_similarity { page_count := some 1 } q.2
              ≤ (classify_template { page_count := some 1 } 0.85
                  [("t1", { page_count := some 1 })]).2.1)
        ∧ ((classify_template { page_count := some 1 } 0.85
              [("t1", { page_count := some 1 })]).2.2 = true
            ↔ (classify_template { page_count := some 1 } 0.85
                [("t1", { page_count := some 1 })]).2.1 < 0.85) := by
  have h := C8_classify_empty_and_best { page_count := some 1 }
    [("t1", { page_count := some 1 })]
  exact ⟨h.1, h.2 (by simp)⟩

/-! ## Profile builder (src/build_template_fps.py) -/

/-- One step of `font_counts[font] = font_counts.get(font, 0) + 1` on an
insertion-ordered dict. -/
def bumpFont (counts : List (String × Nat)) (f : String) : List (String × Nat) :=
  if counts.any (fun kv => kv.1 == f) then
    counts.map (fun kv => if kv.1 == f then (kv.1, kv.2 + 1) else kv)
  else counts ++ [(f, 1)]

/-- The `font_counts` dict of `average_fingerprints`: iterate exemplars,
then each exemplar's `top_fonts`, counting first-encountered-first. -/
def fontCounts (fps : List Fingerprint) : List (String × Nat) :=
  fps.foldl (fun acc fp => (fp.top_fonts.getD []).foldl bumpFont acc) []

/-- Descending-by-count comparison used by
`sorted(font_counts.items(), key=lambda x: -x[1])`. -/
def fontCountLe (a b : String × Nat) : Bool := b.2 ≤ a.2

/-- Python's `sorted` with key `-count`: the stable descending sort.  A
stable sort is extensionally unique, and `List.mergeSort` is stable, so
this is the same function Python computes. -/
def sortFontCounts (l : List (String × Nat)) : List (String × Nat) :=
  l.mergeSort fontCountLe

/-- `average_fingerprints` from `src/build_template_fps.py`: for an empty
input return the empty dict; otherwise average only the seven base numeric
keys (`numeric_keys`), with `fp.get(key, 0)`, and take the three most
frequent fonts.  Keyword keys are *not* carried into the result. -/
def average_fingerprints (fps : List Fingerprint) : Fingerprint :=
  if fps.isEmpty then {}
  else
    { page_count := some ((fps.map (fun fp => fp.page_count.getD 0)).sum / (fps.length : ℚ)),
      avg_width := some ((fps.map (fun fp => fp.avg_width.getD 0)).sum / (fps.length : ℚ)),
      avg_height := some ((fps.map (fun fp => fp.avg_height.getD 0)).sum / (fps.length : ℚ)),
      header_text_density :=
        some ((fps.map (fun fp => fp.header_text_density.getD 0)).sum / (fps.length : ℚ)),
      footer_text_density :=
        some ((fps.map (fun fp => fp.footer_text_density.getD 0)).sum / (fps.length : ℚ)),
      body_text_density :=
        some ((fps.map (fun fp => fp.body_text_density.getD 0)).sum / (fps.length : ℚ)),
      avg_font_size :=
        some ((fps.map (fun fp => fp.avg_font_size.getD 0)).sum / (fps.length : ℚ)),
      top_fonts := some (((sortFontCounts (fontCounts fps)).take 3).map (·.1)) }

/-- The per-template store entry built by `build_template_fps.main`:
`if fps: template_fps[template_id] = average_fingerprints(fps)` — an empty
exemplar set contributes no profile. -/
def build_profile (fps : List Fingerprint) : Option Fingerprint :=
  if fps.isEmpty then none else some (average_fingerprints fps)

theorem fontCountLe_trans (a b c : String × Nat) :
    fontCountLe a b → fontCountLe b c → fontCountLe a c := by
  unfold fontCountLe
  intro h1 h2
  simp only [decide_eq_true_eq] at *
  omega

theorem fontCountLe_total (a b : String × Nat) :
    fontCountLe a b || fontCountLe b a := by
  unfold fontCountLe
  rcases Nat.le_total b.2 a.2 with h | h <;> simp [h]

/-- **C4** (amended) — for a nonempty exemplar set the Profile Builder
averages exactly the seven base numeric slots; the keyword-count slots are
*not* stored on the profile, so the classifier's feature vector reads `0`
there (slots 7–14); `top_fonts` is the first three entries of the stable
descending-by-count sort of the first-encountered font counts (sorted,
a permutation of the counts, and preserving the original order of ties);
an empty exemplar set yields no profile in the store. -/
theorem C4_theorem_average_fingerprints (fps : List Fingerprint)
    (hne : fps ≠ []) :
    ((average_fingerprints fps).page_count
        = some ((fps.map (fun fp => fp.page_count.getD 0)).sum / (fps.length : ℚ))
      ∧ (average_fingerprints fps).avg_width
        = some ((fps.map (fun fp => fp.avg_width.getD 0)).sum / (fps.length : ℚ))
      ∧ (average_fingerprints fps).avg_height
        = some ((fps.map (fun fp => fp.avg_height.getD 0)).sum / (fps.length : ℚ))
      ∧ (average_fingerprints fps).header_text_density
        = some ((fps.map (fun fp => fp.header_text_density.getD 0)).sum / (fps.length : ℚ))
      ∧ (average_fingerprints fps).footer_text_density
        = some ((fps.map (fun fp => fp.footer_text_density.getD 0)).sum / (fps.length : ℚ))
      ∧ (average_fingerprints fps).body_text_density
        = some ((fps.map (fun fp => fp.body_text_density.getD 0)).sum / (fps.length : ℚ))
      ∧ (average_fingerprints fps).avg_font_size
        = some ((fps.map (fun fp => fp.avg_font_size.getD 0)).sum / (fps.length : ℚ)))
    ∧ (_fp_to_vector (average_fingerprints fps)).drop 7 = List.replicate 8 0
    ∧ ((average_fingerprints fps).top_fonts
          = some (((sortFontCounts (fontCounts fps)).take 3).map (·.1))
        ∧ (sortFontCounts (fontCounts fps)).Perm (fontCounts fps)
        ∧ (sortFontCounts (fontCounts fps)).Pairwise (fun a b => b.2 ≤ a.2)
        ∧ ∀ a b : String × Nat, b.2 ≤ a.2 → List.Sublist [a, b] (fontCounts fps) →
            List.Sublist [a, b] (sortFontCounts (fontCounts fps)))
    ∧ build_profile [] = none
    ∧ build_profile fps = some (average_fingerprints fps) := by
  have hie : fps.isEmpty = false := by
    cases fps with
    | nil => exact absurd rfl hne
    | cons a t => rfl
  refine ⟨?_, ?_, ⟨?_, ?_, ?_, ?_⟩, rfl, ?_⟩
  · simp [average_fingerprints, hie]
  · simp [average_fingerprints, hie, _fp_to_vector, List.replicate]
  · simp [average_fingerprints, hie]
  · exact List.mergeSort_perm (fontCounts fps) fontCountLe
  · have h := @List.sorted_mergeSort (String × Nat) fontCountLe
      (fun a b c h1 h2 => fontCountLe_trans a b c h1 h2)
      fontCountLe_total (fontCounts fps)
    refine h.imp ?_
    intro a b hab
    simpa [fontCountLe] using hab
  · intro a b hab hsub
    exact List.pair_sublist_mergeSort
      (fun a b c h1 h2 => fontCountLe_trans a b c h1 h2)
      fontCountLe_total (by simpa [fontCountLe] using hab) hsub
  · simp [build_profile, hie]

/-- **C4** (witness). -/
theorem C4_theorem_average_fingerprints_witness :
    (average_fingerprints [{ page_count := some 1, kw_hot_springs := some 2 }]).page_count
        = some (((([{ page_count := some 1, kw_hot_springs := some 2 }] :
            List Fingerprint).map (fun fp => fp.page_count.getD 0)).sum
              / (([{ page_count := some 1, kw_hot_springs := some 2 }] :
                  List Fingerprint).length : ℚ)))
    ∧ (_fp_to_vector (average_fingerprints
        [{ page_count := some 1, kw_hot_springs := some 2 }])).drop 7
        = List.replicate 8 0
    ∧ build_profile ([] : List Fingerprint) = none := by
  have h := C4_theorem_average_fingerprints
    [{ page_count := some 1, kw_hot_springs := some 2 }] (by simp)
  exact ⟨h.1.1, h.2.1, h.2.2.2.1⟩

/-- **C4** (counterexample) — with a single exemplar whose
`kw_hot_springs` count is `2`, the claimed mean of that keyword slot is
`2`, but the built profile's feature-vector slot 7 (`kw_hot_springs`)
reads `0`: keyword slots are not averaged into profiles. -/
theorem C4_counterexample_keyword_slots_not_averaged :
    (_fp_to_vector (average_fingerprints
        [{ page_count := some 1, kw_hot_springs := some 2 }])).getD 7 0 = 0
    ∧ ((([{ page_count := some 1, kw_hot_springs := some 2 }] :
          List Fingerprint).map (fun fp => fp.kw_hot_springs.getD 0)).sum
            / (([{ page_count := some 1, kw_hot_springs := some 2 }] :
                List Fingerprint).length : ℚ)) = 2
    ∧ (0 : ℚ) ≠ 2 := by
  refine ⟨?_, by norm_num, by norm_num⟩
  simp [average_fingerprints, _fp_to_vector]

/-! ## A small Python-`re` compatible matching engine

The extraction pipeline of `src/parser_prototype.py` is built from `re`
patterns.  The engine below implements the fragment those patterns use —
literals, classes (`[...]`, `\d`, `\s`, `\w` and negations), alternation,
greedy and lazy counted repetition, capturing groups with last-match-wins
semantics, lookahead `(?=...)`/`(?!...)`, anchors `^`/`$`, word boundary
`\b`, and the `IGNORECASE`/`DOTALL`/`MULTILINE` flags — with Python's
leftmost, backtracking preference order (alternation prefers left, greedy
prefers longer, lazy prefers shorter).  `fuel` only bounds the depth of
repetition unrolling so the recursion is structural; the wrappers pass
enough for the patterns at hand (whose repeated bodies all consume input)
for it never to run out.  `\w`/`\s`/`\d` are the ASCII/`str.isspace`
sets — the corpus is ASCII. -/

inductive ClsItem where
  | ch (c : Char)
  | range (lo hi : Char)
  | digit | notDigit | space | notSpace | word | notWord

inductive RE where
  | eps
  | never                         -- matches nothing (empty alternation)
  | ch (c : Char)
  | dot
  | cls (neg : Bool) (items : List ClsItem)
  | seq (a b : RE)
  | alt (a b : RE)
  | rep (lo : Nat) (hi : Option Nat) (greedy : Bool) (a : RE)
  | grp (idx : Nat) (a : RE)
  | look (neg : Bool) (a : RE)
  | bol | eol | wordB

structure ReFlags where
  icase : Bool := false
  dotall : Bool := false
  multiline : Bool := false

def asciiUpper (c : Char) : Char :=
  if 97 ≤ c.toNat && c.toNat ≤ 122 then Char.ofNat (c.toNat - 32) else c

def isWordChar (c : Char) : Bool :=
  c.isAlpha || c.isDigit || c == '_'

def clsItemMatch1 : ClsItem → Char → Bool
  | .ch c', c => c == c'
  | .range lo hi, c => lo ≤ c && c ≤ hi
  | .digit, c => c.isDigit
  | .notDigit, c => !c.isDigit
  | .space, c => pyIsSpace c
  | .notSpace, c => !pyIsSpace c
  | .word, c => isWordChar c
  | .notWord, c => !isWordChar c

def clsItemMatch (fl : ReFlags) (it : ClsItem) (c : Char) : Bool :=
  clsItemMatch1 it c ||
    (fl.icase && (clsItemMatch1 it (asciiLower c) || clsItemMatch1 it (asciiUpper c)))

def charEq (fl : ReFlags) (pc c : Char) : Bool :=
  if fl.icase then asciiLower pc == asciiLower c else pc == c

/-- Group captures: `(index, start, stop)`, most recent first. -/
abbrev Caps := List (Nat × Nat × Nat)

def capGet? (caps : Caps) (i : Nat) : Option (Nat × Nat) :=
  (caps.find? (fun x => x.1 == i)).map (fun x => x.2)

def charAt? (s : List Char) (i : Nat) : Option Char :=
  s.get? i

def atBol (fl : ReFlags) (s : List Char) (pos : Nat) : Bool :=
  pos == 0 || (fl.multiline && charAt? s (pos - 1) == some '\n')

def atEol (fl : ReFlags) (s : List Char) (pos : Nat) : Bool :=
  pos == s.length ||
    (if fl.multiline then charAt? s pos == some '\n'
     else pos + 1 == s.length && charAt? s pos == some '\n')

def atWordB (s : List Char) (pos : Nat) : Bool :=
  let before := match charAt? s (pos - 1) with
    | some c => pos != 0 && isWordChar c
    | none => false
  let here := match charAt? s pos with
    | some c => isWordChar c
    | none => false
  before != here

/-- The backtracking matcher, CPS style.  Every recursive call decrements
`fuel` (so the recursion is structural on `Nat` and the kernel can
evaluate it); a counted repetition is unrolled by re-entering a `.rep`
node with decremented bounds.  The wrappers pass fuel well beyond the
recursion depth of the patterns at hand. -/
def reMatch (fl : ReFlags) (input : List Char) :
    Nat → RE → Nat → Caps → (Nat → Caps → Option (Nat × Caps)) → Option (Nat × Caps)
  | 0, _, _, _, _ => none
  | fuel + 1, re, pos, caps, k =>
      match re with
      | .eps => k pos caps
      | .never => none
      | .ch c =>
          (match charAt? input pos with
           | some c' => if charEq fl c c' then k (pos + 1) caps else none
           | none => none)
      | .dot =>
          (match charAt? input pos with
           | some c' => if fl.dotall || c' != '\n' then k (pos + 1) caps else none
           | none => none)
      | .cls neg items =>
          (match charAt? input pos with
           | some c' =>
               if (items.any (fun it => clsItemMatch fl it c')) != neg then
                 k (pos + 1) caps
               else none
           | none => none)
      | .seq a b =>
          reMatch fl input fuel a pos caps
            (fun p' caps' => reMatch fl input fuel b p' caps' k)
      | .alt a b =>
          (match reMatch fl input fuel a pos caps k with
           | some r => some r
           | none => reMatch fl input fuel b pos caps k)
      | .rep lo hi greedy a =>
          if lo != 0 then
            reMatch fl input fuel a pos caps
              (fun p' caps' =>
                reMatch fl input fuel (.rep (lo - 1) (hi.map (fun h => h - 1)) greedy a)
                  p' caps' k)
          else
            (match hi with
             | some 0 => k pos caps
             | _ =>
                 if greedy then
                   match reMatch fl input fuel a pos caps
                       (fun p' caps' =>
                         reMatch fl input fuel
                           (.rep 0 (hi.map (fun h => h - 1)) greedy a) p' caps' k) with
                   | some r => some r
                   | none => k pos caps
                 else
                   match k pos caps with
                   | some r => some r
                   | none =>
                       reMatch fl input fuel a pos caps
                         (fun p' caps' =>
                           reMatch fl input fuel
                             (.rep 0 (hi.map (fun h => h - 1)) greedy a) p' caps' k))
      | .grp i a =>
          reMatch fl input fuel a pos caps
            (fun p' caps' => k p' ((i, pos, p') :: caps'))
      | .look neg a =>
          (match reMatch fl input fuel a pos caps (fun p' caps' => some (p', caps')) with
           | some (_, caps') => if neg then none else k pos caps'
           | none => if neg then k pos caps else none)
      | .bol => if atBol fl input pos then k pos caps else none
      | .eol => if atEol fl input pos then k pos caps else none
      | .wordB => if atWordB input pos then k pos caps else none


/-- A match object: overall start/stop and the group captures. -/
structure ReMatch where
  mstart : Nat
  mstop : Nat
  caps : Caps

def reFuel (input : List Char) : Nat :=
  (input.length + 2) * (input.length + 2) * 8 + 4000

/-- Try to match at a fixed position (like an anchored attempt of
`pattern.search` at `pos`). -/
def reMatchAt (fl : ReFlags) (re : RE) (input : List Char) (pos : Nat) :
    Option ReMatch :=
  match reMatch fl input (reFuel input) re pos [] (fun p c => some (p, c)) with
  | some (p, caps) => some ⟨pos, p, caps⟩
  | none => none

def reSearchGo (fl : ReFlags) (re : RE) (input : List Char) : Nat → Nat → Option ReMatch
  | 0, _ => none
  | fuel + 1, pos =>
      match reMatchAt fl re input pos with
      | some m => some m
      | none =>
          if input.length ≤ pos then none
          else reSearchGo fl re input fuel (pos + 1)

/-- `pattern.search(input)`: leftmost match. -/
def reSearch (fl : ReFlags) (re : RE) (input : List Char) : Option ReMatch :=
  reSearchGo fl re input (input.length + 1) 0

/-- `pattern.match(input)`: match anchored at the start (not necessarily
the whole string). -/
def reMatchHead (fl : ReFlags) (re : RE) (input : List Char) : Option ReMatch :=
  reMatchAt fl re input 0

/-- `input[a:b]`. -/
def sliceList (s : List Char) (a b : Nat) : List Char :=
  (s.take b).drop a

/-- `m.group(i)`: `none` when the group did not participate. -/
def mGroup? (input : List Char) (m : ReMatch) (i : Nat) : Option (List Char) :=
  if i == 0 then some (sliceList input m.mstart m.mstop)
  else (capGet? m.caps i).map (fun ab => sliceList input ab.1 ab.2)

/-- `m.groups()[-1]` needs the largest group index of the pattern; the
callers below pass it explicitly. -/
inductive ReplItem where
  | lit (s : List Char)
  | grp (n : Nat)

def applyRepl (input : List Char) (m : ReMatch) (repl : List ReplItem) : List Char :=
  repl.foldr
    (fun it acc =>
      (match it with
        | .lit s => s
        | .grp n =>
            match capGet? m.caps n with
            | some ab => sliceList input ab.1 ab.2
            | none => []) ++ acc) []

def reSubGo (fl : ReFlags) (re : RE) (repl : List ReplItem) (input : List Char) :
    Nat → Nat → List Char
  | 0, pos => input.drop pos
  | fuel + 1, pos =>
      match reSearchGo fl re input (input.length + 1 - pos) pos with
      | none => input.drop pos
      | some m =>
          sliceList input pos m.mstart ++ applyRepl input m repl ++
          (if m.mstop == m.mstart then
            match charAt? input m.mstop with
            | some c => c :: reSubGo fl re repl input fuel (m.mstop + 1)
            | none => []
          else reSubGo fl re repl input fuel m.mstop)

/-- `pattern.sub(repl, input)`: replace every non-overlapping occurrence,
left to right. -/
def reSub (fl : ReFlags) (re : RE) (repl : List ReplItem) (input : List Char) :
    List Char :=
  reSubGo fl re repl input (input.length + 2) 0

def reFindIterGo (fl : ReFlags) (re : RE) (input : List Char) :
    Nat → Nat → List ReMatch
  | 0, _ => []
  | fuel + 1, pos =>
      match reSearchGo fl re input (input.length + 1 - pos) pos with
      | none => []
      | some m =>
          m ::
          (if m.mstop == m.mstart then
            if input.length ≤ m.mstop then []
            else reFindIterGo fl re input fuel (m.mstop + 1)
          else reFindIterGo fl re input fuel m.mstop)

/-- `pattern.finditer(input)`. -/
def reFindIter (fl : ReFlags) (re : RE) (input : List Char) : List ReMatch :=
  reFindIterGo fl re input (input.length + 2) 0

/-- `pattern.findall(input)` for a pattern without capturing groups:
the list of matched substrings. -/
def reFindAll0 (fl : ReFlags) (re : RE) (input : List Char) : List (List Char) :=
  (reFindIter fl re input).map (fun m => sliceList input m.mstart m.mstop)

/-! Constructors used to transliterate the patterns. -/

def rStr (s : String) : RE :=
  (s.data.map RE.ch).foldr RE.seq RE.eps

def rSeqN (l : List RE) : RE := l.foldr RE.seq RE.eps

def rAltN (l : List RE) : RE :=
  match l with
  | [] => RE.never
  | a :: t => t.foldl RE.alt a

def rOpt (a : RE) : RE := RE.rep 0 (some 1) true a
def rOptLazy (a : RE) : RE := RE.rep 0 (some 1) false a
def rStar (a : RE) : RE := RE.rep 0 none true a
def rStarLazy (a : RE) : RE := RE.rep 0 none false a
def rPlus (a : RE) : RE := RE.rep 1 none true a
def rPlusLazy (a : RE) : RE := RE.rep 1 none false a
def rWs : RE := RE.cls false [.space]
def rD : RE := RE.cls false [.digit]
def rW : RE := RE.cls false [.word]
def rND : RE := RE.cls false [.notDigit]

/-! ## Invoice parser embedding (src/parser_prototype.py)

The layout provider (pdfplumber) is external: a `Page` carries what the
code reads from it — `extract_text()`, `extract_words()` and
`extract_tables(...)`. -/

abbrev PyText := List Char

structure Word where
  text : PyText
  x0 : ℚ
  top : ℚ

structure Page where
  raw_text : Option PyText := none
  words : List Word := []
  tables : List (List (List (Option PyText))) := []

structure Document where
  pages : List Page

def pyLowerChars (s : PyText) : PyText := s.map asciiLower

/-- `sub in s` (substring containment). -/
def containsSub (sub : PyText) : PyText → Bool
  | [] => sub.isEmpty
  | c :: cs => sub.isPrefixOf (c :: cs) || containsSub sub cs

/-- `s.split(sep)` for a single-character separator (keeps empty pieces,
unlike `splitlines`). -/
def pySplitChar (sep : Char) (s : PyText) : List PyText :=
  match s with
  | [] => [[]]
  | c :: cs =>
      let rest := pySplitChar sep cs
      if c == sep then [] :: rest
      else
        match rest with
        | r :: rs => (c :: r) :: rs
        | [] => [[c]]

/-- `str.strip(chars)`. -/
def pyStripSet (set : PyText) (s : PyText) : PyText :=
  ((s.dropWhile (fun c => set.contains c)).reverse.dropWhile
    (fun c => set.contains c)).reverse

/-- `str.rstrip()`. -/
def pyRStrip (s : PyText) : PyText :=
  (s.reverse.dropWhile pyIsSpace).reverse

/-- `str.split()` with no argument: split on whitespace runs, no empties. -/
def pySplitWs (s : PyText) : List PyText :=
  (s.splitOnP pyIsSpace).filter (fun w => !w.isEmpty)

/-- `float(s)` on a string of digits and dots (what remains after
`re.sub(r"[^\d.]", "", ·)`): at most one dot and at least one digit. -/
def pyFloat? (s : PyText) : Option ℚ :=
  let intPart := s.takeWhile (fun c => c != '.')
  let rest := s.dropWhile (fun c => c != '.')
  let fracPart := if rest.isEmpty then [] else rest.tail
  if !(s.all (fun c => c.isDigit || c == '.')) then none
  else if fracPart.any (fun c => c == '.') then none
  else if intPart.isEmpty && fracPart.isEmpty then none
  else if !(intPart.any Char.isDigit) && !(fracPart.any Char.isDigit) then none
  else
    let iv : ℚ := intPart.foldl (fun a c => a * 10 + (digitVal c : ℚ)) 0
    let fv : ℚ := fracPart.foldl (fun a c => a * 10 + (digitVal c : ℚ)) 0
    some (iv + fv / (10 ^ fracPart.length : ℚ))

/-! ### The compiled patterns, transliterated from the `re` sources. -/

def rRep (lo hi : Nat) (a : RE) : RE := RE.rep lo (some hi) true a
def rRepLazy (lo hi : Nat) (a : RE) : RE := RE.rep lo (some hi) false a
def rAZ : RE := RE.cls false [.range 'A' 'Z']
def rAZaz : RE := RE.cls false [.range 'A' 'Z', .range 'a' 'z']
def rNotNl : RE := RE.cls true [.ch '\n']
def flI : ReFlags := { icase := true }
def flIM : ReFlags := { icase := true, multiline := true }
def flIS : ReFlags := { icase := true, dotall := true }
def flM : ReFlags := { multiline := true }

/-- `DATE_TOKEN` (one capturing group, index `g`). -/
def dateTokenRE (g : Nat) : RE :=
  RE.grp g (rAltN
    [rSeqN [rRep 4 4 rD, RE.ch '-', rRep 2 2 rD, RE.ch '-', rRep 2 2 rD],
     rSeqN [rRep 1 2 rD, RE.cls false [.ch '/', .ch '-'], rRep 1 2 rD,
       RE.cls false [.ch '/', .ch '-'], rRep 2 4 rD],
     rSeqN [rRep 1 2 rD, rPlus rWs, rRep 3 9 rAZaz, rPlus rWs, rRep 2 4 rD]])

/-- `LABEL_NORMALIZATIONS` (all applied with `re.IGNORECASE`). -/
def LABEL_NORMALIZATIONS : List (RE × String) :=
  [(rSeqN [rStr "Due", rPlus rWs, rStr "Date"], "Due Date"),
   (rSeqN [rStr "Account", rStar rWs, rStr "No", rOpt (RE.ch '.')], "Account No"),
   (rSeqN [rStr "Invoice", rStar rWs, rStr "No", rOpt (RE.ch '.'), rStar rWs,
     rOpt (RE.ch ':')], "Invoice #"),
   (rSeqN [rStr "Invoice", rStar rWs, RE.grp 1 (RE.ch '#')], "Invoice #"),
   (rSeqN [rStr "Date", rPlus rWs, rStr "of", rPlus rWs, rStr "Issue"], "Invoice Date"),
   (rSeqN [rStr "Patient", rStar rWs, rStr "Name", rStar rWs, RE.ch ':'], "Patient Name:"),
   (rSeqN [rStr "Hospital", rStar rWs, rStr "No", rStar rWs, RE.ch ':'], "Hospital No:"),
   (rSeqN [rStr "Patient", rStar rWs, rStr "Age", rStar rWs, RE.ch ':'], "Patient Age:"),
   (rSeqN [rStr "Admission", rStar rWs, rStr "Date", rStar rWs, RE.ch ':'], "Admission Date:"),
   (rSeqN [rStr "Discharge", rStar rWs, rStr "Date", rStar rWs, RE.ch ':'], "Discharge Date:"),
   (rSeqN [rStr "Sub", rStar rWs, rStr "Total"], "Subtotal"),
   (rSeqN [rStr "Bed", rStar rWs, rStr "No", rStar rWs, RE.ch ':'], "Bed No:"),
   (rSeqN [rStr "Total", rStar rWs, RE.ch ':', rStar rWs], "Total "),
   (rSeqN [rStr "Subtotal", rStar rWs, RE.ch ':', rStar rWs], "Subtotal "),
   (rSeqN [rStr "Consultant", rStar rWs, RE.ch ':'], "Consultant:")]

/-- `_base_label_cleanup`: apply each normalization in order. -/
def _base_label_cleanup (txt : PyText) : PyText :=
  LABEL_NORMALIZATIONS.foldl
    (fun t pr => reSub flI pr.1 [.lit pr.2.data] t) txt

/-- `CITY_ZIP_RE`. -/
def CITY_ZIP_RE : RE :=
  rSeqN [RE.wordB, rRep 2 2 rAZ, rStar rWs, rRep 5 5 rD,
    rOpt (rSeqN [RE.ch '-', rRep 4 4 rD]), RE.wordB]

/-- `NEXT_LABEL_HEADS` (used with `.match`; `re.IGNORECASE`). -/
def NEXT_LABEL_HEADS : RE :=
  rSeqN [RE.bol,
    RE.grp 1 (rAltN
      [rStr "Admission", rStr "Discharge",
       rSeqN [rStr "Patient", rStar rWs, rStr "Age"],
       rSeqN [rStr "Hospital", rStar rWs, rStr "No"],
       rSeqN [rStr "Bed", rStar rWs, rStr "No"],
       rStr "Consultant", rStr "Phone", rStr "Email", rStr "Subtotal",
       rSeqN [rStr "Sub", rStar rWs, rStr "Total"], rStr "Total",
       rSeqN [rStr "Due", rStar rWs, rStr "Date"],
       rSeqN [rStr "Invoice", rStar rWs, rStr "Date"],
       rSeqN [rStr "Code", RE.wordB],
       rSeqN [rStr "Invoice", rStar rWs, rStr "Details"],
       rSeqN [rStr "Tax", RE.wordB]]),
    RE.wordB]

/-- `FIELD_PATTERNS` from `src/parser_prototype.py`, in dict order:
`(key, flags, pattern)`; every pattern has exactly one capturing group, so
`m.groups()[-1]` is group 1. -/
def fpInvoiceNumber : RE :=
  rSeqN [rAltN
      [rSeqN [rStr "Invoice", rStar rWs, RE.ch '#'],
       rSeqN [rStr "Invoice", rStar rWs, rStr "No", rOpt (RE.ch '.'), rStar rWs,
         rOpt (RE.ch ':')]],
    rStar rWs,
    RE.grp 1 (rPlus (RE.cls false [.range 'A' 'Z', .range '0' '9', .ch '_',
      .ch '/', .ch '-']))]

def fpAccountNumber : RE :=
  rSeqN [rStr "Account", rStar rWs, rStr "No", rOpt (RE.ch '.'), rStar rWs,
    RE.grp 1 (rPlus (RE.cls false [.range 'A' 'Z', .range '0' '9', .ch '_',
      .ch '/', .ch '-']))]

def fpInvoiceDate : RE :=
  rSeqN [rAltN
      [rSeqN [rStr "Invoice", rStar rWs, rStr "Date"], rStr "Date"],
    rStar rWs, rOpt (RE.ch ':'), rStar rWs, dateTokenRE 1]

def fpDueDate : RE :=
  rSeqN [rAltN
      [rSeqN [rStr "Due", rStar rWs, rStr "Date"],
       rSeqN [rStr "Payment", rStar rWs, rStr "Due"],
       rSeqN [rStr "Due", rStar rWs, rStr "by"],
       rSeqN [rStr "Term", rOpt (RE.ch 's'), rOpt (RE.ch ':'),
         rRepLazy 0 30 RE.dot, rStr "Due"]],
    rStar rWs, rOpt (RE.cls false [.ch ':', .ch '-', .ch '\u2013']), rStar rWs,
    rRep 0 50 (rAltN [RE.ch '\n', RE.ch '\r', rWs]),
    dateTokenRE 1]

def fpAdmissionDate : RE :=
  rSeqN [rStr "Admission", rStar rWs, rStr "Date:", rStar rWs, dateTokenRE 1]

def fpDischargeDate : RE :=
  rSeqN [rStr "Discharge", rStar rWs, rStr "Date:", rStar rWs, dateTokenRE 1]

def fpPatientName : RE :=
  rSeqN [rStr "Patient", rStar rWs, rStr "Name:", rStar rWs,
    RE.grp 1 (rPlusLazy rNotNl),
    RE.look false (rSeqN [rStar rWs, rAltN
      [rSeqN [rStr "Hospital", rStar rWs, rStr "No:"],
       rSeqN [rStr "Patient", rStar rWs, rStr "Age:"],
       rSeqN [rStr "Bed", rStar rWs, rStr "No:"],
       rSeqN [rStr "Admission", rStar rWs, rStr "Date:"],
       rSeqN [rStr "Discharge", rStar rWs, rStr "Date:"],
       rStr "Address:", rStr "Subtotal", rStr "Total",
       rSeqN [rStr "Due", rStar rWs, rStr "Date"],
       rSeqN [rStr "Invoice", rStar rWs, rStr "Date"],
       rStr "Phone", rStr "Email", rStr "Consultant:",
       rSeqN [rStr "INVOICE", rStar rWs, rStr "DETAILS"],
       rStr "Code", RE.eol]])]

def fpPatientAge : RE :=
  rSeqN [rStr "Patient", rStar rWs, rStr "Age:", rStar rWs,
    RE.grp 1 (rPlus rD), RE.wordB]

def fpPatientAddress : RE :=
  rSeqN [rStr "Address:", rStar rWs,
    RE.grp 1 (rPlusLazy RE.dot), rStar rWs,
    RE.look false (rAltN
      [rSeqN [rStr "Patient", rStar rWs, rStr "Age"],
       rSeqN [rStr "Hospital", rStar rWs, rStr "No"],
       rSeqN [rStr "Bed", rStar rWs, rStr "No"],
       rStr "Consultant",
       rSeqN [rStr "Admission", rStar rWs, rStr "Dat", rOpt (RE.ch 'e')],
       rSeqN [rStr "Discharge", rStar rWs, rStr "Dat", rOpt (RE.ch 'e')],
       rStr "Subtotal", rStr "Total",
       rSeqN [rStr "Due", rStar rWs, rStr "Date"],
       rSeqN [rStr "Invoice", rStar rWs, rStr "Date"],
       rStr "Phone", rStr "Email", rStr "E:", rStr "Contact",
       rSeqN [rStr "INVOICE", rStar rWs, rStr "DETAILS"],
       rStr "Code", RE.eol])]

def fpBedId : RE :=
  rSeqN [rStr "Bed", rStar rWs, rStr "No", rStar rWs, RE.ch ':', rStar rWs,
    RE.grp 1 (rPlus (RE.cls false [.range 'A' 'Z', .range '0' '9', .ch '_', .ch '-']))]

def fpProviderName : RE :=
  rSeqN [rAltN [rStr "Consultant", rStr "Provider", rStr "Doctor"],
    rStar rWs, RE.ch ':', rStar rWs,
    RE.grp 1 (rSeqN [RE.cls true [.ch '\n', .ch ':'], rPlusLazy rNotNl]),
    rStar rWs,
    RE.look false (rAltN
      [rSeqN [rStr "Bed", rStar rWs, rStr "No"],
       rStr "Phone", rStr "Email", rStr "Address",
       rSeqN [rStr "Admission", rStar rWs, rStr "Date"],
       rSeqN [rStr "Discharge", rStar rWs, rStr "Date"],
       rStr "Subtotal", rStr "Total", RE.eol])]

def moneyGroup : RE :=
  RE.grp 1 (rSeqN [rPlus (RE.cls false [.digit, .ch ',']),
    rOpt (rSeqN [RE.ch '.', rRep 2 2 rD])])

def fpSubtotalAmount : RE :=
  rSeqN [RE.bol, rStar rWs, rStr "Subtotal", RE.wordB,
    RE.cls false [.ch ':', .ch ' '], rStar rWs, rOpt (RE.ch '$'), moneyGroup]

def fpDiscountAmount : RE :=
  rSeqN [RE.bol, rStar rWs, rStr "Discount", RE.wordB,
    RE.cls false [.ch ':', .ch ' '], rStar rWs, rOpt (RE.ch '$'), moneyGroup]

def fpTotalAmount : RE :=
  rSeqN [RE.bol, rStar rWs, rStr "Total", RE.wordB,
    RE.cls false [.ch ':', .ch ' '], rStar rWs, rOpt (RE.ch '$'), moneyGroup]

def FIELD_PATTERNS : List (String × ReFlags × RE) :=
  [("invoice_number", flI, fpInvoiceNumber),
   ("account_number", flI, fpAccountNumber),
   ("invoice_date", flI, fpInvoiceDate),
   ("due_date", flI, fpDueDate),
   ("admission_date", flI, fpAdmissionDate),
   ("discharge_date", flI, fpDischargeDate),
   ("patient_name", flI, fpPatientName),
   ("patient_age", flI, fpPatientAge),
   ("patient_address", flIS, fpPatientAddress),
   ("bed_id", flI, fpBedId),
   ("provider_name", flI, fpProviderName),
   ("subtotal_amount", flIM, fpSubtotalAmount),
   ("discount_amount", flIM, fpDiscountAmount),
   ("total_amount", flIM, fpTotalAmount)]

/-- `PHONE_RE` (no flags, no capturing groups). -/
def PHONE_RE : RE :=
  rSeqN [rOpt (rSeqN [rOpt (RE.ch '+'), rRep 1 2 rD,
      rOpt (RE.cls false [.ch '-', .ch '.', .space])]),
    rOpt (RE.ch '('), rRep 3 3 rD, rOpt (RE.ch ')'),
    rOpt (RE.cls false [.ch '-', .ch '.', .space]), rRep 3 3 rD,
    rOpt (RE.cls false [.ch '-', .ch '.', .space]), rRep 4 4 rD, RE.wordB]

def emailLocal : RE :=
  rPlus (RE.cls false [.range 'A' 'Z', .range '0' '9', .ch '.', .ch '_',
    .ch '%', .ch '+', .ch '-'])

def emailDomain : RE :=
  rSeqN [rPlus (RE.cls false [.range 'A' 'Z', .range '0' '9', .ch '.', .ch '-']),
    RE.ch '.', RE.rep 2 none true rAZ]

/-- `EMAIL_LABELED_RE` (IGNORECASE, one group). -/
def EMAIL_LABELED_RE : RE :=
  rSeqN [rAltN [rStr "Email", rStr "E:"], rStar rWs,
    RE.grp 1 (rSeqN [emailLocal, RE.ch '@', emailDomain])]

/-- `EMAIL_ANY_RE` (IGNORECASE, no groups). -/
def EMAIL_ANY_RE : RE :=
  rSeqN [RE.wordB, emailLocal, RE.ch '@', emailDomain, RE.wordB]

/-- `CODE_RE` (used with `.fullmatch`). -/
def CODE_RE : RE :=
  rSeqN [RE.bol, rRep 1 4 rAZ, rOpt (RE.ch '-'), rRep 2 4 rD, RE.eol]

/-- `pattern.fullmatch(s)` as a boolean. -/
def reFullmatchB (fl : ReFlags) (re : RE) (s : PyText) : Bool :=
  match reMatchHead fl re s with
  | some m => m.mstop == s.length
  | none => false

def SUMMARY_DESC : List PyText :=
  ["subtotal".data, "sub total".data, "discount".data, "total".data,
   "tax".data, "tax rate".data]

/-! ### Generic helpers shared by the extractors -/

/-- A literal sequence from a char list (for dynamically built patterns). -/
def rLit (l : PyText) : RE :=
  (l.map RE.ch).foldr RE.seq RE.eps

/-- `re.sub(r"\s+", " ", s)`: replace each maximal whitespace run by one
space (the run is dropped via `dropWhile`, so plain fuel on the length
suffices). -/
def collapseWsAllGo : Nat → PyText → PyText
  | 0, s => s
  | _, [] => []
  | fuel + 1, c :: cs =>
      if pyIsSpace c then ' ' :: collapseWsAllGo fuel (cs.dropWhile pyIsSpace)
      else c :: collapseWsAllGo fuel cs

def collapseWsAll (s : PyText) : PyText :=
  collapseWsAllGo (s.length + 1) s

/-- `re.findall(pat, s)` for a pattern with exactly one capturing group:
the list of group-1 substrings. -/
def reFindAllG1 (fl : ReFlags) (re : RE) (input : PyText) : List PyText :=
  (reFindIter fl re input).map (fun m => (mGroup? input m 1).getD [])

/-- `int(s)` for an optionally signed digit string (what `int()` accepts on
the inputs arising here, whitespace apart). -/
def pyInt? (s : PyText) : Option ℤ :=
  let t := pyStripChars s
  let core := if t.headD ' ' == '-' || t.headD ' ' == '+' then t.tail else t
  if core.isEmpty || !(core.all Char.isDigit) then none
  else
    let n : ℤ := core.foldl (fun a c => a * 10 + (digitVal c : ℤ)) 0
    some (if t.headD ' ' == '-' then -n else n)

/-! ### `clean_and_convert` / `sanitize_code_cell` (lines 589–612) -/

def dateFieldKeys : List String :=
  ["invoice_date", "due_date", "admission_date", "discharge_date"]

def moneyFieldKeys : List String :=
  ["subtotal_amount", "discount_amount", "total_amount", "amount"]

/-- `clean_and_convert(key, value)`: date fields go through `norm_date`
(`None` on failure), other values are whitespace-collapsed, stripped and
de-comma'd; money fields become `float(re.sub(r"[^\d.]", "", cleaned))`
(`None` on `ValueError`), `patient_age` becomes `int(float(cleaned))`
truncated toward zero (the values reaching it are nonnegative), everything
else stays a string. -/
def clean_and_convert (key : String) (value : Option PyText) : JVal :=
  match value with
  | none => JVal.null
  | some s =>
      if dateFieldKeys.contains key then
        match norm_date (String.mk s) with
        | some d => JVal.str d
        | none => JVal.null
      else
        let cleaned := (pyStripChars (collapseWsAll s)).filter (fun c => c != ',')
        if moneyFieldKeys.contains key then
          match pyFloat? (cleaned.filter (fun c => c.isDigit || c == '.')) with
          | some q => JVal.num q
          | none => JVal.null
        else if key == "patient_age" then
          match pyFloat? cleaned with
          | some q => JVal.int ⌊q⌋
          | none => JVal.null
        else JVal.str (String.mk cleaned)

/-- `sanitize_code_cell`: strip, then drop everything outside
`[A-Za-z0-9-]`. -/
def sanitize_code_cell (s : PyText) : PyText :=
  (pyStripChars s).filter (fun c => c.isAlpha || c.isDigit || c == '-')

/-! ### `detect_template` (lines 100–111) -/

def detect_template (txt : PyText) : Option String :=
  let t := pyLowerChars txt
  if containsSub "hot springs general hospital".data t then some "T1"
  else if containsSub "rose petal clinic".data t then some "T2"
  else if containsSub "white petal hospital center".data t then some "T3"
  else none

/-! ### `_slice_patient_block` (lines 614–633) -/

def patientNameLabelRE : RE :=
  rSeqN [rStr "Patient", rStar rWs, rStr "Name:"]

def patientBlockEndRE : RE :=
  rAltN [rSeqN [rStr "Admission", rStar rWs, rStr "Date:"],
    rSeqN [rStr "Discharge", rStar rWs, rStr "Date:"],
    rSeqN [rStr "INVOICE", rStar rWs, rStr "DETAILS"],
    rSeqN [RE.bol, rStar rWs, rStr "Code", rStar rWs, RE.eol],
    rSeqN [rStr "Code", rPlus rWs, rStr "Description"]]

def _slice_patient_block (txt : PyText) : PyText :=
  let s1 := (reSearch flI patientNameLabelRE txt).map (fun m => m.mstart)
  let s2 := (reSearch flI (rStr "Address:") txt).map (fun m => m.mstart)
  let start? := match s1, s2 with
    | none, none => none
    | some a, none => some a
    | none, some b => some b
    | some a, some b => some (min a b)
  match start? with
  | none => []
  | some start =>
      match reSearch flIM patientBlockEndRE (txt.drop start) with
      | some m => sliceList txt start (start + m.mstart)
      | none => txt.drop start

/-! ### Template address extractors (lines 428–514) -/

/-- `[.\u2024\u2027\u2219\u22C5\u00B7]{2,}` (dot leaders). -/
def dotLeaderRE : RE :=
  RE.rep 2 none true (RE.cls false
    [.ch '.', .ch '\u2024', .ch '\u2027', .ch '\u2219', .ch '\u22C5', .ch '\u00B7'])

/-- `\s{2,}`. -/
def multiWsRE : RE := RE.rep 2 none true rWs

/-- `\b(Admission\s*Date|…|Email)\b.*$` (IGNORECASE only, so `$` is
end-of-string / before a final newline). -/
def addrScrubRE : RE :=
  rSeqN [RE.wordB,
    RE.grp 1 (rAltN
      [rSeqN [rStr "Admission", rStar rWs, rStr "Date"],
       rSeqN [rStr "Discharge", rStar rWs, rStr "Date"],
       rSeqN [rStr "Patient", rStar rWs, rStr "Age"],
       rSeqN [rStr "Hospital", rStar rWs, rStr "No"],
       rSeqN [rStr "Bed", rStar rWs, rStr "No"],
       rStr "Consultant", rStr "Phone", rStr "Email"]),
    RE.wordB, rStar RE.dot, RE.eol]

def addrT1LineRE : RE :=
  rSeqN [rStr "Address", rStar rWs, RE.ch ':', rStar rWs,
    RE.grp 1 (rStar RE.dot), RE.eol]

def extract_address_T1 (txt : PyText) : Option PyText :=
  match reSearch flIM addrT1LineRE txt with
  | none => none
  | some m =>
      let line1 := pyStripChars ((mGroup? txt m 1).getD [])
      let rest := txt.drop m.mstop
      let line2 :=
        if rest.isEmpty then ([] : PyText)
        else match pySplitlines rest with
          | [] => []
          | l :: _ => pyStripChars l
      let joined := List.intercalate (", ".data)
        (([line1, line2]).filter (fun p => !p.isEmpty))
      let joined := reSub flI addrScrubRE [] joined
      let joined := reSub {} dotLeaderRE [.lit " ".data] joined
      let joined := pyStripSet " ,;:-".data (reSub {} multiWsRE [.lit " ".data] joined)
      if joined.isEmpty then none else some joined

def addrT2LineRE : RE :=
  rSeqN [RE.wordB, rStr "Address", rStar rWs, RE.ch ':', rStar rWs,
    RE.grp 1 (rPlus RE.dot), RE.eol]

def extract_address_T2 (txt : PyText) : Option PyText :=
  match reSearch flIM addrT2LineRE txt with
  | none => none
  | some m =>
      let addr := pyStripChars ((mGroup? txt m 1).getD [])
      let addr := pyStripSet " ,;:-".data (reSub {} multiWsRE [.lit " ".data] addr)
      if addr.isEmpty then none else some addr

/-- `\bBILLED\s*TO\s*:\s*` (the `$`-anchored variant appends `eol`). -/
def billedToHeadRE : RE :=
  rSeqN [RE.wordB, rStr "BILLED", rStar rWs, rStr "TO", rStar rWs,
    RE.ch ':', rStar rWs]

def billedToHeadEolRE : RE := rSeqN [billedToHeadRE, RE.eol]

/-- `.*BILLED\s*TO\s*:\s*` (greedy prefix), used with `re.sub(..., "")`. -/
def billedToStripRE : RE := rSeqN [rStar RE.dot, billedToHeadRE]

/-- `\bINVOICE\s*DETAILS\b|\bInvoice\s*#|\bInvoice\s*Date\b|\bDue\s*Date\b`. -/
def invoiceDetailsBreakRE : RE :=
  rAltN [rSeqN [RE.wordB, rStr "INVOICE", rStar rWs, rStr "DETAILS", RE.wordB],
    rSeqN [RE.wordB, rStr "Invoice", rStar rWs, RE.ch '#'],
    rSeqN [RE.wordB, rStr "Invoice", rStar rWs, rStr "Date", RE.wordB],
    rSeqN [RE.wordB, rStr "Due", rStar rWs, rStr "Date", RE.wordB]]

/-- The `for ln in lines` loop of `extract_address_T3` (state:
`grabbing`, `name_seen`, collected `addr_lines`). -/
def addrT3Go : List PyText → Bool → Bool → List PyText → List PyText
  | [], _, _, acc => acc
  | ln :: rest, grabbing, name_seen, acc =>
      let s := pyStripChars ln
      if !grabbing then
        if (reSearch flI billedToHeadEolRE s).isSome
            || (reSearch flI billedToHeadRE s).isSome then
          let after := pyStripChars (reSub flI billedToStripRE [] s)
          addrT3Go rest true (if !after.isEmpty then true else name_seen) acc
        else addrT3Go rest false name_seen acc
      else
        if s.isEmpty then acc
        else if (reSearch flI invoiceDetailsBreakRE s).isSome then acc
        else if !name_seen then addrT3Go rest true true acc
        else
          let acc' := acc ++ [s]
          if 2 ≤ acc'.length then acc' else addrT3Go rest true name_seen acc'

def extract_address_T3 (txt : PyText) : Option PyText :=
  let addr := pyStripSet " ,;:-".data
    (List.intercalate (", ".data) (addrT3Go (pySplitlines txt) false false []))
  if addr.isEmpty then none else some addr

def extract_patient_address_by_template (txt : PyText) (template : Option String) :
    Option PyText :=
  if template == some "T1" then extract_address_T1 txt
  else if template == some "T2" then extract_address_T2 txt
  else if template == some "T3" then extract_address_T3 txt
  else
    match reSearch flIS fpPatientAddress txt with
    | some m =>
        match mGroup? txt m 1 with
        | some addr =>
            let addr := reSub {} dotLeaderRE [.lit " ".data] addr
            let addr := pyStripSet " ,;:-".data
              (reSub {} multiWsRE [.lit " ".data] addr)
            if addr.isEmpty then none else some addr
        | none => none
    | none => none

/-! ### Post-extraction normalizers (lines 636–723) -/

/-- `_collapse_ws` (`if not s: return s`). -/
def _collapse_ws (s : PyText) : PyText :=
  if s.isEmpty then s else pyStripChars (collapseWsAll s)

/-- `_normalize_us_phone`: keep the last 10 digits as `NNN-NNN-NNNN`;
7–9 digits pass through bare; fewer yield `None`. -/
def _normalize_us_phone (s : PyText) : Option PyText :=
  if s.isEmpty then none
  else
    let digits := s.filter Char.isDigit
    if 10 ≤ digits.length then
      let last10 := digits.drop (digits.length - 10)
      some (last10.take 3 ++ ['-'] ++ (last10.drop 3).take 3 ++ ['-'] ++ last10.drop 6)
    else if 7 ≤ digits.length then some digits
    else none

def zip5or9RE : RE :=
  rSeqN [rRep 5 5 rD, rOpt (rSeqN [RE.ch '-', rRep 4 4 rD])]

/-- `US_CITY_STATE_ZIP` (no flags, used with `.match`). -/
def US_CITY_STATE_ZIP : RE :=
  rSeqN [RE.bol, rStar rWs,
    RE.grp 1 (rPlus (RE.cls false
      [.range 'A' 'Z', .range 'a' 'z', .ch ' ', .ch '.', .ch '\x27', .ch '-'])),
    rStar rWs, rOpt (RE.ch ','), rStar rWs,
    RE.grp 2 (rRep 2 2 rAZ),
    rStar rWs, rOpt (RE.ch ','), rStar rWs,
    RE.grp 3 zip5or9RE, rStar rWs, RE.eol]

/-- `^(.*?),(.*)$` (used with `.match`). -/
def streetRestRE : RE :=
  rSeqN [RE.bol, RE.grp 1 (rStarLazy RE.dot), RE.ch ',',
    RE.grp 2 (rStar RE.dot), RE.eol]

/-- `,\s*(\d{5}(?:-\d{4})?)$` → `" \1"`. -/
def commaZipTailRE : RE :=
  rSeqN [RE.ch ',', rStar rWs, RE.grp 1 zip5or9RE, RE.eol]

/-- `([A-Za-z])\s+([A-Z]{2})\s+(\d{5}(?:-\d{4})?)$` → `"\1, \2 \3"`. -/
def stateZipTailRE : RE :=
  rSeqN [RE.grp 1 rAZaz, rPlus rWs, RE.grp 2 (rRep 2 2 rAZ), rPlus rWs,
    RE.grp 3 zip5or9RE, RE.eol]

/-- `^(.*)\s+([A-Za-z .'-]+)\s+([A-Z]{2})\s+(\d{5}(?:-\d{4})?)$`. -/
def streetCityStateZipRE : RE :=
  rSeqN [RE.bol, RE.grp 1 (rStar RE.dot), rPlus rWs,
    RE.grp 2 (rPlus (RE.cls false
      [.range 'A' 'Z', .range 'a' 'z', .ch ' ', .ch '.', .ch '\x27', .ch '-'])),
    rPlus rWs, RE.grp 3 (rRep 2 2 rAZ), rPlus rWs,
    RE.grp 4 zip5or9RE, RE.eol]

def zipTailFixes (rest : PyText) : PyText :=
  let rest := reSub {} commaZipTailRE [.lit " ".data, .grp 1] rest
  reSub {} stateZipTailRE [.grp 1, .lit ", ".data, .grp 2, .lit " ".data, .grp 3] rest

/-- `_normalize_us_address` (the `None` guard lives at each call site; an
empty string returns itself like Python's falsy early return). -/
def _normalize_us_address (addr : PyText) : PyText :=
  if addr.isEmpty then addr
  else
    let a := listReplace ['\n'] (", ".data) addr
    let a := pyStripSet " ,;".data (collapseWsAll a)
    match reMatchHead {} streetRestRE a with
    | some m =>
        let street := pyStripChars ((mGroup? a m 1).getD [])
        let rest := pyStripChars ((mGroup? a m 2).getD [])
        (match reMatchHead {} US_CITY_STATE_ZIP rest with
         | some m2 =>
             let city := (mGroup? rest m2 1).getD []
             let st := (mGroup? rest m2 2).getD []
             let z := (mGroup? rest m2 3).getD []
             street ++ ", ".data ++ pyStripChars city ++ ", ".data ++ st ++ [' '] ++ z
         | none =>
             pyStripSet " ,;".data (street ++ ", ".data ++ zipTailFixes rest))
    | none =>
        match reMatchHead {} streetCityStateZipRE a with
        | some m3 =>
            let street := (mGroup? a m3 1).getD []
            let city := (mGroup? a m3 2).getD []
            let st := (mGroup? a m3 3).getD []
            let z := (mGroup? a m3 4).getD []
            pyStripChars street ++ ", ".data ++ pyStripChars city ++ ", ".data ++
              st ++ [' '] ++ z
        | none => zipTailFixes a

/-- One step of the `for k in [...]` loop of `_postprocess_uniformity`:
`if k in data and isinstance(data[k], str): data[k] = _collapse_ws(data[k])`. -/
def ppCollapseKey (k : String) (d : Dict) : Dict :=
  match dictGet? d k with
  | some (JVal.str s) => dictSet d k (JVal.str (String.mk (_collapse_ws s.data)))
  | _ => d

/-- `if data.get("patient_address"): data["patient_address"] =
_normalize_us_address(...)` (a truthy address is a nonempty string here). -/
def ppAddress (d : Dict) : Dict :=
  match dictGet? d "patient_address" with
  | some (JVal.str s) =>
      if s != "" then
        dictSet d "patient_address"
          (JVal.str (String.mk (_normalize_us_address s.data)))
      else d
  | _ => d

/-- `if data.get("patient_phone"): data["patient_phone"] =
_normalize_us_phone(...)` (which may assign `None`). -/
def ppPhone (d : Dict) : Dict :=
  match dictGet? d "patient_phone" with
  | some (JVal.str s) =>
      if s != "" then
        dictSet d "patient_phone"
          (match _normalize_us_phone s.data with
           | some p => JVal.str (String.mk p)
           | none => JVal.null)
      else d
  | _ => d

/-- `_postprocess_uniformity`: collapse whitespace on the six stringy
fields, then re-normalize a truthy address and a truthy phone. -/
def _postprocess_uniformity (data : Dict) : Dict :=
  ppPhone (ppAddress
    (["invoice_number", "patient_name", "patient_address",
      "provider_name", "bed_id", "patient_email"].foldl
      (fun d k => ppCollapseKey k d) data))

/-! ### `extract_fields` (lines 726–791), staged as in the source: the
`FIELD_PATTERNS` loop, then email/phone with blacklists, then the
template-specific address override, then `_postprocess_uniformity`. -/

/-- The `for key, pat in FIELD_PATTERNS.items()` loop (lines 727–734). -/
def extract_fields_pats (prepped : PyText) : Dict :=
  FIELD_PATTERNS.foldl
    (fun d kfp =>
      match reSearch kfp.2.1 kfp.2.2 prepped with
      | none => dictSet d kfp.1 JVal.null
      | some m => dictSet d kfp.1 (clean_and_convert kfp.1 (mGroup? prepped m 1)))
    []

def EMAIL_BLACKLIST : List String := ["info@hotspringsgen.com"]

/-- Lines 740–756: labeled email in the patient block, else labeled email
anywhere, else any email; then the blacklist. -/
def extract_email_value (prepped blk : PyText) : Option PyText :=
  let email_val :=
    match reSearch flI EMAIL_LABELED_RE blk with
    | some m => (mGroup? blk m 1).map pyStripChars
    | none =>
        match reSearch flI EMAIL_LABELED_RE prepped with
        | some m2 => (mGroup? prepped m2 1).map pyStripChars
        | none =>
            match reSearch flI EMAIL_ANY_RE prepped with
            | some m3 => some (pyStripChars (sliceList prepped m3.mstart m3.mstop))
            | none => none
  match email_val with
  | some v =>
      if !v.isEmpty && EMAIL_BLACKLIST.contains (String.mk (pyLowerChars v)) then none
      else some v
  | none => none

/-- `(?:Phone|Tel|Contact)\s*[:\-]?\s*(` + PHONE_RE + `)` (IGNORECASE). -/
def phoneLabeledRE : RE :=
  rSeqN [rAltN [rStr "Phone", rStr "Tel", rStr "Contact"], rStar rWs,
    rOpt (RE.cls false [.ch ':', .ch '-']), rStar rWs, RE.grp 1 PHONE_RE]

/-- Lines 758–782: labeled phone in the patient block, else the first
`PHONE_RE.findall` hit (the pattern has no groups, so `findall` yields
strings); then the `1234567890` last-10-digits blacklist. -/
def extract_phone_value (prepped blk : PyText) : Option PyText :=
  let phone_val :=
    match reSearch flI phoneLabeledRE blk with
    | some m => (mGroup? blk m 1).map pyStripChars
    | none =>
        match reFindAll0 {} PHONE_RE prepped with
        | p :: _ => some (pyStripChars p)
        | [] => none
  match phone_val with
  | some v =>
      if v.isEmpty then some v
      else
        let digits := v.filter Char.isDigit
        let last10 := if 10 ≤ digits.length then digits.drop (digits.length - 10)
          else digits
        if last10 = "1234567890".data then none else some v
  | none => none

/-- Lines 727–788 (everything before the final
`_postprocess_uniformity`). -/
def extract_fields_core (prepped : PyText) : Dict :=
  let data := extract_fields_pats prepped
  let blk := _slice_patient_block prepped
  let data := dictSet data "patient_email"
    (match extract_email_value prepped blk with
     | some v => JVal.str (String.mk v)
     | none => JVal.null)
  let data := dictSet data "patient_phone"
    (match extract_phone_value prepped blk with
     | some v => JVal.str (String.mk v)
     | none => JVal.null)
  let template := detect_template prepped
  match extract_patient_address_by_template prepped template with
  | some addr =>
      if !addr.isEmpty then dictSet data "patient_address" (JVal.str (String.mk addr))
      else data
  | none => data

def extract_fields (prepped : PyText) : Dict :=
  _postprocess_uniformity (extract_fields_core prepped)

/-! ### Patient-name fallbacks (lines 794–859) -/

/-- `\d|@`. -/
def digitAtRE : RE := rAltN [rD, RE.ch '@']

/-- `[A-Z][a-z'.-]+\.?$` (used with `.match`, no flags). -/
def titleWordRE : RE :=
  rSeqN [RE.cls false [.range 'A' 'Z'],
    rPlus (RE.cls false [.range 'a' 'z', .ch '\x27', .ch '.', .ch '-']),
    rOpt (RE.ch '.'), RE.eol]

def _looks_like_name (s : PyText) : Bool :=
  if s.isEmpty then false
  else if 60 < s.length then false
  else if (reSearch {} digitAtRE s).isSome then false
  else
    let words := pySplitWs (pyStripChars s)
    if words.length < 2 || 7 < words.length then false
    else
      let titleish :=
        (words.filter (fun w => (reMatchHead {} titleWordRE w).isSome)).length
      max 2 (words.length - 1) ≤ titleish

/-- The header-word blacklist of `_patient_name_fallback` (IGNORECASE). -/
def nameFbBlacklistRE : RE :=
  rSeqN [RE.wordB,
    RE.grp 1 (rAltN [rStr "invoice", rStr "clinic", rStr "hospital",
      rStr "address", rStr "phone", rStr "email", rStr "website", rStr "due",
      rStr "date", rStr "account", rStr "subtotal", rStr "total", rStr "tax",
      rStr "code", rStr "description", rStr "particulars",
      rSeqN [rStr "billed", rStar rWs, rStr "to"]]),
    RE.wordB]

def _patient_name_fallback (prepped : PyText) : Option PyText :=
  let lines := ((pySplitlines prepped).map pyStripChars).filter
    (fun l => !l.isEmpty)
  (lines.take 15).findSome? (fun ln =>
    if (reSearch flI nameFbBlacklistRE ln).isSome then none
    else if _looks_like_name ln then some ln else none)

/-- The `for ln in lines` loop of `_extract_billed_to` (name and address
lines; unlike `extract_address_T3` there is no two-line cap). -/
def billedToGo : List PyText → Bool → Option PyText → List PyText →
    Option PyText × List PyText
  | [], _, name, acc => (name, acc)
  | ln :: rest, grabbing, name, acc =>
      let s := pyStripChars ln
      if !grabbing then
        if (reSearch flI billedToHeadEolRE s).isSome
            || (reSearch flI billedToHeadRE s).isSome then
          let after := pyStripChars (reSub flI billedToStripRE [] s)
          billedToGo rest true (if !after.isEmpty then some after else name) acc
        else billedToGo rest false name acc
      else
        if s.isEmpty then (name, acc)
        else if (reSearch flI invoiceDetailsBreakRE s).isSome then (name, acc)
        else match name with
          | none => billedToGo rest true (some s) acc
          | some n => billedToGo rest true (some n) (acc ++ [s])

def _extract_billed_to (prepped : PyText) : Option PyText × Option PyText :=
  let r := billedToGo (pySplitlines prepped) false none []
  (r.1,
   if r.2.isEmpty then none
   else some (pyStripChars (List.intercalate [' '] r.2)))

/-! ### `_is_summary_row` and `extract_line_items` (lines 861–1008) -/

def _is_summary_row (desc code : PyText) : Bool :=
  let d := pyLowerChars (pyStripChars desc)
  let c := pyLowerChars (pyStripChars code)
  SUMMARY_DESC.contains d || SUMMARY_DESC.contains c ||
    (d.getLast? == some ':' &&
      SUMMARY_DESC.contains (pyLowerChars (pyStripChars d.dropLast)))

/-- `([\d,]+\.\d{2})` (amount inside a table cell). -/
def amtCellRE : RE :=
  RE.grp 1 (rSeqN [rPlus (RE.cls false [.digit, .ch ',']), RE.ch '.',
    rRep 2 2 rD])

/-- `([A-Z]{1,4}-?\d{2,4})` (a line-item code). -/
def codeShapeRE : RE :=
  rSeqN [rRep 1 4 rAZ, rOpt (RE.ch '-'), rRep 2 4 rD]

def mkLineItem (desc : PyText) (code : Option PyText) (amt : JVal) : JVal :=
  JVal.obj [("description", JVal.str (String.mk (pyStripChars desc))),
    ("code", match code with | some c => JVal.str (String.mk c) | none => JVal.null),
    ("amount", amt)]

/-- `find_idx` of the table path: first candidate present in the header. -/
def find_idx (header : List PyText) (cands : List PyText) : Option Nat :=
  cands.findSome? (fun c => header.findIdx? (fun h => h == c))

/-- One data row of the table path (lines 896–938): `None` when the row is
skipped. -/
def processRow (idx_code idx_desc : Option Nat) (idx_amt : Nat)
    (row : List (Option PyText)) : Option JVal :=
  if row.isEmpty then none
  else
    let cells := row.map (fun c => pyStripChars (c.getD []))
    let code : Option PyText := match idx_code with
      | some i => if i < cells.length then some (sanitize_code_cell (cells.getD i []))
          else none
      | none => none
    let desc : PyText := match idx_desc with
      | some i => if i < cells.length then cells.getD i [] else []
      | none => []
    let amt_raw := if idx_amt < cells.length then cells.getD idx_amt [] else []
    let amt : JVal := match reSearch {} amtCellRE amt_raw with
      | some m => clean_and_convert "amount" (mGroup? amt_raw m 1)
      | none => JVal.null
    if _is_summary_row desc (code.getD []) then none
    else
      let codeOk : Bool := match code with
        | some c => !c.isEmpty && reFullmatchB {} CODE_RE c
        | none => false
      let code := if codeOk then code
        else match cells.findSome? (fun c =>
            let cand := sanitize_code_cell c
            if reFullmatchB {} CODE_RE cand then some cand else none) with
          | some cand => some cand
          | none => code
      let desc := if desc.isEmpty then
          match cells.filter (fun c =>
              !(reSearch {} rD c).isSome
                && !reFullmatchB {} CODE_RE (sanitize_code_cell c)) with
          | [] => desc
          | c0 :: cs => cs.foldl (fun best c =>
              if best.length < c.length then c else best) c0
        else desc
      if !desc.isEmpty && !(isNull amt)
          && (match code with
              | none => true
              | some c => reFullmatchB {} CODE_RE c) then
        some (mkLineItem desc code amt)
      else none

/-- The table path (lines 873–938). -/
def tableItems (tables : List (List (List (Option PyText)))) : List JVal :=
  tables.foldl
    (fun acc table =>
      match table with
      | [] => acc
      | hdrRow :: rows =>
          if hdrRow.isEmpty then acc
          else
            let header := hdrRow.map (fun c => pyLowerChars (pyStripChars (c.getD [])))
            let idx_code := find_idx header ["code".data]
            let idx_desc := find_idx header
              ["particulars".data, "description".data, "item".data, "service".data]
            let idx_amt := find_idx header ["amount".data, "price".data, "total".data]
            match idx_amt with
            | none => acc
            | some ia => acc ++ rows.filterMap (processRow idx_code idx_desc ia))
    []

/-- `(?!\s*(?:Sub\s*Total|Subtotal|Discount|Total|Tax(?:\s*Rate)?)\b)`
(the fallback patterns carry only `re.MULTILINE`, so this is
case-sensitive). -/
def summaryHeadLook : RE :=
  RE.look true (rSeqN [rStar rWs,
    rAltN [rSeqN [rStr "Sub", rStar rWs, rStr "Total"], rStr "Subtotal",
      rStr "Discount", rStr "Total",
      rSeqN [rStr "Tax", rOpt (rSeqN [rStar rWs, rStr "Rate"])]],
    RE.wordB])

def moneyTailRE (g : Nat) : RE :=
  rSeqN [rOpt (RE.ch '$'),
    RE.grp g (rSeqN [rPlus (RE.cls false [.digit, .ch ',']), RE.ch '.',
      rRep 2 2 rD]), RE.eol]

/-- Fallback 1: `^(?!…)([A-Z]{1,4}-?\d{2,4})\s+(.+?)\s+\$?([\d,]+\.\d{2})$`. -/
def fb1RE : RE :=
  rSeqN [RE.bol, summaryHeadLook, RE.grp 1 codeShapeRE, rPlus rWs,
    RE.grp 2 (rPlusLazy RE.dot), rPlus rWs, moneyTailRE 3]

/-- Fallback 2: `^(?!…)(.+?)\s+([A-Z]{1,4}-?\d{2,4})\s+\$?([\d,]+\.\d{2})$`. -/
def fb2RE : RE :=
  rSeqN [RE.bol, summaryHeadLook, RE.grp 1 (rPlusLazy RE.dot), rPlus rWs,
    RE.grp 2 codeShapeRE, rPlus rWs, moneyTailRE 3]

/-- Fallback 3: `^(?!…)(.+?)\s+\$?([\d,]+\.\d{2})$`. -/
def fb3RE : RE :=
  rSeqN [RE.bol, summaryHeadLook, RE.grp 1 (rPlusLazy RE.dot), rPlus rWs,
    moneyTailRE 2]

/-- `\bdescription\b.*\bcode\b` (IGNORECASE), the fallback-2 header
skip. -/
def descCodeHdrRE : RE :=
  rSeqN [RE.wordB, rStr "description", RE.wordB, rStar RE.dot, RE.wordB,
    rStr "code", RE.wordB]

def extract_line_items (page : Page) (prepped : PyText) : List JVal :=
  let items := tableItems page.tables
  let items := if items.isEmpty then
      (reFindIter flM fb1RE prepped).map (fun m =>
        mkLineItem ((mGroup? prepped m 2).getD []) (mGroup? prepped m 1)
          (clean_and_convert "amount" (mGroup? prepped m 3)))
    else items
  let items := if items.isEmpty then
      (reFindIter flM fb2RE prepped).filterMap (fun m =>
        let desc := (mGroup? prepped m 1).getD []
        if (reSearch flI descCodeHdrRE desc).isSome then none
        else some (mkLineItem desc (mGroup? prepped m 2)
          (clean_and_convert "amount" (mGroup? prepped m 3))))
    else items
  if items.isEmpty then
    (reFindIter flM fb3RE prepped).filterMap (fun m =>
      let desc := (mGroup? prepped m 1).getD []
      if _is_summary_row desc [] then none
      else
        match reSearch {} (RE.grp 1 codeShapeRE) desc with
        | some mc =>
            let cand := (mGroup? desc mc 1).getD []
            let desc := pyStripChars
              (reSub {} (rSeqN [RE.wordB, rLit cand, RE.wordB]) [] desc)
            some (mkLineItem desc (some cand)
              (clean_and_convert "amount" (mGroup? prepped m 2)))
        | none =>
            some (mkLineItem desc none
              (clean_and_convert "amount" (mGroup? prepped m 2))))
  else items

/-! ### Gregorian day arithmetic for the `Net N` due-date fallback
(`date(y, m, d) + timedelta(days=n)`), via the standard civil-calendar
conversion; all divisors are positive so `Int` division is floor
division. -/

def daysFromCivil (y : ℤ) (m d : Nat) : ℤ :=
  let y' := if m ≤ 2 then y - 1 else y
  let era := y' / 400
  let yoe := y' - era * 400
  let mp : ℤ := ((m : ℤ) + 9) % 12
  let doy := (153 * mp + 2) / 5 + (d : ℤ) - 1
  let doe := yoe * 365 + yoe / 4 - yoe / 100 + doy
  era * 146097 + doe - 719468

def civilFromDays (z0 : ℤ) : ℤ × Nat × Nat :=
  let z := z0 + 719468
  let era := z / 146097
  let doe := z - era * 146097
  let yoe := (doe - doe / 1460 + doe / 36524 - doe / 146096) / 365
  let y := yoe + era * 400
  let doy := doe - (365 * yoe + yoe / 4 - yoe / 100)
  let mp := (5 * doy + 2) / 153
  let d := doy - (153 * mp + 2) / 5 + 1
  let m := if mp < 10 then mp + 3 else mp - 9
  ((if m ≤ 2 then y + 1 else y), m.toNat, d.toNat)

def isoFromDays (z : ℤ) : String :=
  match civilFromDays z with
  | (y, m, d) => isoFormat (y.toNat, m, d)

/-- `date(y, m, d)` validity (`datetime.MINYEAR = 1`, `MAXYEAR = 9999`). -/
def dateCtorValid (y : ℤ) (m d : Nat) : Bool :=
  1 ≤ y && y ≤ 9999 && 1 ≤ m && m ≤ 12 && 1 ≤ d && d ≤ daysInMonth y.toNat m

/-- `date(*map(int, inv.split("-"))) + timedelta(days=n)` in isoformat;
`None` models the caught `ValueError`/`OverflowError`. -/
def dueFromNet (inv : String) (n : Nat) : Option String :=
  match pySplitChar '-' inv.data with
  | [ys, ms, ds] =>
      (match pyInt? ys, pyInt? ms, pyInt? ds with
       | some y, some m, some d =>
           if 0 ≤ m && 0 ≤ d && dateCtorValid y m.toNat d.toNat then
             let days := daysFromCivil y m.toNat d.toNat + (n : ℤ)
             if days ≤ daysFromCivil 9999 12 31 then some (isoFromDays days)
             else none
           else none
       | _, _, _ => none)
  | _ => none

/-! ### Spatial address extraction for T1 (lines 517–586)

`_group_words_by_line` evaluates `sorted(words, key=lambda x:
(round(w["top"], 1), w["x0"]))`.  The sort key closes over `w` — the loop
variable of the enclosing `for` statement — which is unbound when
`sorted()` evaluates the key, so the call raises `NameError` for every
nonempty `words` list; `sorted([])` never invokes the key, the loop body
never runs, and the function returns `[]`. -/

structure WLine where
  y : ℚ
  lwords : List Word

def _group_words_by_line (words : List Word) : Except String (List WLine) :=
  match words with
  | [] => Except.ok []
  | _ :: _ =>
      Except.error "name 'w' is not defined"

def _find_label_token_idx (line_words : List Word) (label : PyText) : Int :=
  match line_words.findIdx? (fun w =>
      let t := pyLowerChars (pyStripChars w.text)
      t == label || t == label ++ [':']) with
  | some i => (i : Int)
  | none => -1

def spatialScan : List WLine → Nat → Option (Nat × Nat)
  | [], _ => none
  | ln :: rest, idx =>
      let i := _find_label_token_idx ln.lwords "address".data
      if 0 ≤ i then some (idx, i.toNat) else spatialScan rest (idx + 1)

def spatialFollow : List WLine → List PyText
  | [] => []
  | ln :: rest =>
      let candidate := pyStripChars
        (List.intercalate [' '] (ln.lwords.map (fun w => w.text)))
      if candidate.isEmpty || (reMatchHead flI NEXT_LABEL_HEADS candidate).isSome
        then []
      else candidate :: spatialFollow rest

/-- `extract_address_T1_spatial`: `.ok none` when the page has no words,
otherwise the `NameError` from `_group_words_by_line` propagates (the code
after the grouping call is transliterated below but is reachable only on
`.ok`, i.e. never for a nonempty word list). -/
def extract_address_T1_spatial (page : Page) : Except String (Option PyText) :=
  let words := page.words
  if words.isEmpty then Except.ok none
  else
    match _group_words_by_line words with
    | Except.error e => Except.error e
    | Except.ok lines =>
        match spatialScan lines 0 with
        | none => Except.ok none
        | some (addr_line_idx, addr_token_idx) =>
            let same_line_words :=
              ((lines.getD addr_line_idx ⟨0, []⟩).lwords).drop (addr_token_idx + 1)
            let line1_val := pyStripChars
              (List.intercalate [' '] (same_line_words.map (fun w => w.text)))
            let follow_vals := spatialFollow
              ((lines.drop (addr_line_idx + 1)).take 2)
            let parts := (line1_val :: follow_vals).filter (fun p => !p.isEmpty)
            if parts.isEmpty then Except.ok none
            else
              let addr := List.intercalate (", ".data) parts
              let addr := reSub {} dotLeaderRE [ReplItem.lit " ".data] addr
              let addr := reSub flI addrScrubRE [] addr
              let addr := pyStripSet " ,;:-".data
                (reSub {} multiWsRE [ReplItem.lit " ".data] addr)
              if addr.isEmpty
                  || "admission".data.isPrefixOf (pyLowerChars addr) then
                Except.ok none
              else Except.ok (some addr)

/-! ### `parse_invoice` (lines 1011–1105), staged by source line range. -/

/-- One admission/discharge lock (lines 1019–1024): set the field only
when it is falsy and the override is truthy; the assigned value is
`norm_date(override)`, which may itself be `None`. -/
def piSetDateIfMissing (key : String) (ov : Option PyText) (data : Dict) : Dict :=
  if !pyTruthy (dictGetD data key JVal.null) then
    match ov with
    | some a =>
        if a.isEmpty then data
        else dictSet data key
          (match norm_date (String.mk a) with
           | some d => JVal.str d
           | none => JVal.null)
    | none => data
  else data

def piStage_dates (adm dis : Option PyText) (data : Dict) : Dict :=
  piSetDateIfMissing "discharge_date" dis
    (piSetDateIfMissing "admission_date" adm data)

/-- Lines 1026–1031: the geometry-based address override for T1. -/
def piStage_spatial (prepped : PyText) (page : Page) (data : Dict) :
    Except String Dict :=
  if detect_template prepped == some "T1" then
    match extract_address_T1_spatial page with
    | Except.error e => Except.error e
    | Except.ok addr_geo =>
        Except.ok (match addr_geo with
          | some a =>
              if !a.isEmpty then
                dictSet data "patient_address" (JVal.str (String.mk a))
              else data
          | none => data)
  else Except.ok data

/-- Lines 1033–1039: the T3 `BILLED TO` fallback. -/
def piStage_billed (prepped : PyText) (data : Dict) : Dict :=
  if !pyTruthy (dictGetD data "patient_name" JVal.null)
      || !pyTruthy (dictGetD data "patient_address" JVal.null) then
    let bt := _extract_billed_to prepped
    let data := match bt.1 with
      | some n =>
          if !n.isEmpty && !pyTruthy (dictGetD data "patient_name" JVal.null) then
            dictSet data "patient_name" (JVal.str (String.mk n))
          else data
      | none => data
    match bt.2 with
    | some a =>
        if !a.isEmpty && !pyTruthy (dictGetD data "patient_address" JVal.null) then
          dictSet data "patient_address" (JVal.str (String.mk a))
        else data
    | none => data
  else data

/-- Lines 1041–1045: generic patient-name fallback. -/
def piStage_namefb (prepped : PyText) (data : Dict) : Dict :=
  if !pyTruthy (dictGetD data "patient_name" JVal.null) then
    match _patient_name_fallback prepped with
    | some pn =>
        if !pn.isEmpty then dictSet data "patient_name" (JVal.str (String.mk pn))
        else data
    | none => data
  else data

/-- `\s*\n\s*` → `", "`. -/
def nlWsRE : RE := rSeqN [rStar rWs, RE.ch '\n', rStar rWs]

/-- The address-cleanup chain of lines 1050–1060, `None` when the result
starts with "admission" or is shorter than 8 characters. -/
def addrCleanValue (s : String) : Option PyText :=
  let addr := s.data
  let addr := reSub {} dotLeaderRE [ReplItem.lit " ".data] addr
  let addr := reSub flI addrScrubRE [] addr
  let addr := reSub {} nlWsRE [ReplItem.lit ", ".data] addr
  let addr := pyStripSet " ,;:-".data
    (reSub {} multiWsRE [ReplItem.lit " ".data] addr)
  if "admission".data.isPrefixOf (pyLowerChars addr) || addr.length < 8 then none
  else some addr

/-- Lines 1048–1061: trailing-junk cleanup of a truthy address (dropping
it when it starts with "admission" or is shorter than 8 characters), then
`_normalize_us_address`. -/
def piStage_addrclean (data : Dict) : Dict :=
  match dictGet? data "patient_address" with
  | some (JVal.str s) =>
      if s != "" then
        match addrCleanValue s with
        | none => dictSet data "patient_address" JVal.null
        | some addr =>
            dictSet data "patient_address"
              (JVal.str (String.mk (_normalize_us_address addr)))
      else data
  | _ => data

/-- `\bPatient\s+Details\b` (IGNORECASE). -/
def patientDetailsRE : RE :=
  rSeqN [RE.wordB, rStr "Patient", rPlus rWs, rStr "Details", RE.wordB]

/-- `Net\s+(\d{1,3})` (IGNORECASE). -/
def netTermsRE : RE := rSeqN [rStr "Net", rPlus rWs, RE.grp 1 (rRep 1 3 rD)]

/-- The header accumulation of lines 1066–1071: every line up to and
including the first one mentioning `Patient Details`. -/
def takeUntilIncl (p : PyText → Bool) : List PyText → List PyText
  | [] => []
  | x :: xs => if p x then [x] else x :: takeUntilIncl p xs

/-- `data.get("invoice_date")` viewed as a possible string. -/
def jstr? : JVal → Option String
  | JVal.str s => some s
  | _ => none

/-- `canon[1]` under the `len(canon) >= 2` guard. -/
def canonSnd : List String → JVal
  | _ :: d :: _ => JVal.str d
  | _ => JVal.null

/-- The `Net N` fallback value (lines 1083–1094): `None` models both "no
`Net` term" and the caught exceptions; a non-string `invoice_date` would
raise `AttributeError` at `inv.split`, also caught. -/
def dueNetValue (hdr : PyText) (inv : JVal) : Option String :=
  match jstr? inv with
  | some s =>
      (reSearch flI netTermsRE hdr).bind (fun m =>
        (pyInt? ((mGroup? hdr m 1).getD [])).bind (fun n =>
          dueFromNet s n.toNat))
  | none => none

/-- Lines 1066–1071: every line up to and including the first one
mentioning `Patient Details`, rejoined. -/
def dueHeader (prepped : PyText) : PyText :=
  List.intercalate ['\n']
    (takeUntilIncl (fun ln => (reSearch flI patientDetailsRE ln).isSome)
      (pySplitlines prepped))

/-- Lines 1073–1074: the normalized header dates. -/
def dueCanon (hdr : PyText) : List String :=
  (reFindAllG1 {} (dateTokenRE 1) hdr).filterMap
    (fun x => norm_date (String.mk x))

/-- `next((d for d in canon if d != inv), None)`. -/
def dueFirstOther (canon : List String) (s : String) : JVal :=
  match canon.find? (fun d => d != s) with
  | some d => JVal.str d
  | none => JVal.null

/-- Lines 1076–1081: pick a due date from the canonical header dates. -/
def dueCanonPick (canon : List String) (inv : JVal) (data : Dict) : Dict :=
  match jstr? inv with
  | some s =>
      if s != "" && canon.contains s && 1 < canon.length then
        dictSet data "due_date" (dueFirstOther canon s)
      else if 2 ≤ canon.length then dictSet data "due_date" (canonSnd canon)
      else data
  | none =>
      if 2 ≤ canon.length then dictSet data "due_date" (canonSnd canon)
      else data

/-- Lines 1083–1094: the `Net N` terms fallback on a still-falsy due
date. -/
def dueNetPick (hdr : PyText) (inv : JVal) (data : Dict) : Dict :=
  if !pyTruthy (dictGetD data "due_date" JVal.null) && pyTruthy inv then
    match dueNetValue hdr inv with
    | some dd => dictSet data "due_date" (JVal.str dd)
    | none => data
  else data

/-- Lines 1063–1094: due-date inference from the header dates, then the
`Net N` terms fallback. -/
def piStage_duedate (prepped : PyText) (data : Dict) : Dict :=
  if !pyTruthy (dictGetD data "due_date" JVal.null) then
    dueNetPick (dueHeader prepped) (dictGetD data "invoice_date" JVal.null)
      (dueCanonPick (dueCanon (dueHeader prepped))
        (dictGetD data "invoice_date" JVal.null) data)
  else data

/-- Lines 1098–1101: purge keys whose lower-cased name starts with
`tax`. -/
def piStage_taxpurge (data : Dict) : Dict :=
  data.filter (fun kv => !(pyStartsWith (pyLower kv.1) "tax"))

/-- Lines 1019–1105 after `extract_fields`: everything `parse_invoice`
does to the field map. -/
def parse_invoice_post (prepped : PyText) (page : Page)
    (adm dis : Option PyText) (data0 : Dict) : Except String Dict :=
  match piStage_spatial prepped page (piStage_dates adm dis data0) with
  | Except.error e => Except.error e
  | Except.ok d =>
      Except.ok (_postprocess_uniformity (piStage_taxpurge
        (dictSet
          (piStage_duedate prepped
            (piStage_addrclean (piStage_namefb prepped (piStage_billed prepped d))))
          "line_items" (JVal.arr (extract_line_items page prepped)))))

def parse_invoice (prepped : PyText) (page : Page) (adm dis : Option PyText) :
    Except String Dict :=
  parse_invoice_post prepped page adm dis (extract_fields prepped)

/-! ### Preprocessors (lines 73–97 and 144–313) -/

/-- `\b[A-Z]{2}\s*\d{5}(?:-\d{4})?\b` is `CITY_ZIP_RE` (defined
earlier); `\bAddress\s*:` (IGNORECASE): -/
def addressLabelRE : RE :=
  rSeqN [RE.wordB, rStr "Address", rStar rWs, RE.ch ':']

/-- The indexed loop of `_stitch_T1_address_lines`; `fuel` bounds the
index walk (the loop breaks after the first fused label). -/
def stitchAddrGo (ls : List PyText) : Nat → Nat → List PyText
  | 0, _ => ls
  | fuel + 1, i =>
      if i < ls.length then
        if (reSearch flI addressLabelRE (ls.getD i [])).isSome then
          let prev_line := if 1 ≤ i then pyStripChars (ls.getD (i - 1) []) else []
          let next_line := if i + 1 < ls.length then pyStripChars (ls.getD (i + 1) [])
            else []
          let prev_ok := !prev_line.isEmpty && !prev_line.contains ':'
            && !(reMatchHead flI NEXT_LABEL_HEADS prev_line).isSome
          let next_ok := !next_line.isEmpty
            && ((reSearch {} CITY_ZIP_RE next_line).isSome
              || !(reMatchHead flI NEXT_LABEL_HEADS next_line).isSome)
          if prev_ok && next_ok then
            (((ls.set i ("Address: ".data ++ prev_line ++ ", ".data ++ next_line)).set
              (i - 1) []).set (i + 1) [])
          else stitchAddrGo ls fuel (i + 1)
        else stitchAddrGo ls fuel (i + 1)
      else ls

def _stitch_T1_address_lines (ls : List PyText) : List PyText :=
  stitchAddrGo ls (ls.length + 1) 0

/-- `Admission\s*Date\s*:\s*` + DATE_TOKEN (IGNORECASE), and the
discharge twin. -/
def admDateRawRE : RE :=
  rSeqN [rStr "Admission", rStar rWs, rStr "Date", rStar rWs, RE.ch ':',
    rStar rWs, dateTokenRE 1]

def disDateRawRE : RE :=
  rSeqN [rStr "Discharge", rStar rWs, rStr "Date", rStar rWs, RE.ch ':',
    rStar rWs, dateTokenRE 1]

def _extract_first_dates_from_raw (raw : PyText) :
    Option PyText × Option PyText :=
  ((reSearch flI admDateRawRE raw).bind (fun m => mGroup? raw m 1),
   (reSearch flI disDateRawRE raw).bind (fun m => mGroup? raw m 1))

/-- `\$\s*\n\s*` → `"$"`. -/
def dollarNlRE : RE := rSeqN [RE.ch '$', rStar rWs, RE.ch '\n', rStar rWs]

/-- `(Da)te\s*:\s*` → `"\1te: "` (IGNORECASE). -/
def daTeFixRE : RE :=
  rSeqN [RE.grp 1 (rStr "Da"), rStr "te", rStar rWs, RE.ch ':', rStar rWs]

/-- The nested `stitch(a, b)`:
`re.sub(fr"({a})\s*(?:\n|\r)+\s*({b})", r"\1 \2", txt, re.I)`. -/
def stitchLbl (a b : RE) (txt : PyText) : PyText :=
  reSub flI
    (rSeqN [RE.grp 1 a, rStar rWs, rPlus (rAltN [RE.ch '\n', RE.ch '\r']),
      rStar rWs, RE.grp 2 b])
    [ReplItem.grp 1, ReplItem.lit [' '], ReplItem.grp 2] txt

def rNoDot : RE := rSeqN [rStr "No", rOpt (RE.ch '.')]

def _preprocess_T1 (raw : PyText) : PyText × Option PyText × Option PyText :=
  if raw.isEmpty then ([], none, none)
  else
    let dates := _extract_first_dates_from_raw raw
    let txt := listReplace ['\r'] ['\n'] raw
    let txt := reSub {} dollarNlRE [ReplItem.lit ['$']] txt
    let txt := stitchLbl (rStr "Due") (rStr "Date") txt
    let txt := stitchLbl (rStr "Account") rNoDot txt
    let txt := stitchLbl (rStr "Invoice") (rAltN [RE.ch '#', rNoDot]) txt
    let txt := stitchLbl (rStr "Admission") (rStr "Date") txt
    let txt := stitchLbl (rStr "Discharge") (rStr "Date") txt
    let txt := stitchLbl (rStr "Bed") rNoDot txt
    let txt := stitchLbl (rStr "Hospital") rNoDot txt
    let txt := stitchLbl (rStr "Patient") (rSeqN [rStr "Name", rOpt (RE.ch ':')]) txt
    let txt := reSub flI daTeFixRE [ReplItem.grp 1, ReplItem.lit "te: ".data] txt
    let txt := _base_label_cleanup txt
    let ls := (pySplitChar '\n' txt).map pyRStrip
    let txt := List.intercalate ['\n'] (_stitch_T1_address_lines ls)
    (_collapse_layout_keep_lines txt, dates.1, dates.2)

def _preprocess_T2 (raw : PyText) : PyText × Option PyText × Option PyText :=
  if raw.isEmpty then ([], none, none)
  else
    let txt := listReplace ['\r'] ['\n'] raw
    let txt := reSub {} dollarNlRE [ReplItem.lit ['$']] txt
    let txt := stitchLbl (rStr "Due") (rStr "Date") txt
    let txt := stitchLbl (rStr "Invoice") (rAltN [RE.ch '#', rNoDot]) txt
    let txt := stitchLbl (rStr "Date") (RE.ch ':') txt
    let txt := reSub flI daTeFixRE [ReplItem.grp 1, ReplItem.lit "te: ".data] txt
    let txt := _base_label_cleanup txt
    (_collapse_layout_keep_lines txt, none, none)

def _preprocess_T3 (raw : PyText) : PyText × Option PyText × Option PyText :=
  if raw.isEmpty then ([], none, none)
  else
    let txt := listReplace ['\r'] ['\n'] raw
    let txt := reSub {} dollarNlRE [ReplItem.lit ['$']] txt
    let txt := stitchLbl (rStr "Due") (rStr "Date") txt
    let txt := stitchLbl (rStr "Invoice") (rAltN [RE.ch '#', rNoDot]) txt
    let txt := stitchLbl (rStr "Date") (rStr "of") txt
    let txt := stitchLbl (rStr "of") (rStr "Issue") txt
    let txt := stitchLbl (rStr "BILLED") (rStr "TO") txt
    let txt := reSub flI daTeFixRE [ReplItem.grp 1, ReplItem.lit "te: ".data] txt
    let txt := _base_label_cleanup txt
    (_collapse_layout_keep_lines txt, none, none)

/-! ### `parse_pdf_bytes` (lines 1108–1140) -/

/-- The body of the `try:` block: `pdf.pages[0]` raises `IndexError` on an
empty PDF; a falsy `extract_text()` result returns the error record
directly (no exception); otherwise the template-specific preprocess,
`parse_invoice` (whose `NameError` propagates here) and the schema
normalization run. -/
def parse_pdf_bytes_core (doc : Document) : Except String Dict :=
  match doc.pages with
  | [] => Except.error "list index out of range"
  | page :: _ =>
      let raw_text := page.raw_text.getD []
      if raw_text.isEmpty then
        Except.ok [("error", JVal.str "Could not extract text from PDF.")]
      else
        let templ := detect_template raw_text
        let prep :=
          if templ == some "T1" then _preprocess_T1 raw_text
          else if templ == some "T2" then _preprocess_T2 raw_text
          else if templ == some "T3" then _preprocess_T3 raw_text
          else _preprocess_T1 raw_text
        match parse_invoice prep.1 page prep.2.1 prep.2.2 with
        | Except.error e => Except.error e
        | Except.ok parsed => Except.ok (normalize_to_invoice_schema_v1 parsed)

/-- `parse_pdf_bytes`: the `except Exception as e:` wrapper makes the
entrypoint total — every uncaught exception becomes the error record. -/
def parse_pdf_bytes (doc : Document) : Dict :=
  match parse_pdf_bytes_core doc with
  | Except.ok d => d
  | Except.error e =>
      [("error", JVal.str
        ("An unexpected error occurred during PDF processing: " ++ e))]

/-! ## Claims C6 and C2: strategy ordering and the empty-text contract -/

lemma find?_key_map_update (d : Dict) (k k' : String) (v : JVal)
    (h : (k' == k) = false) :
    (d.map (fun kv => if kv.1 == k' then (k', v) else kv)).find?
        (fun kv => kv.1 == k)
      = d.find? (fun kv => kv.1 == k) := by
  induction d with
  | nil => rfl
  | cons hd tl ih =>
      simp only [List.map_cons, List.find?_cons]
      by_cases h1 : (hd.1 == k') = true
      · have hd1 : hd.1 = k' := by simpa using h1
        have h2 : (hd.1 == k) = false := by rw [hd1]; exact h
        rw [if_pos h1]
        simp only [h, h2]
        exact ih
      · rw [if_neg h1]
        cases hp : (hd.1 == k)
        · simp only [hp]; exact ih
        · simp only [hp]

lemma find?_key_append (d : Dict) (k k' : String) (v : JVal)
    (h : (k' == k) = false) :
    (d ++ [(k', v)]).find? (fun kv => kv.1 == k)
      = d.find? (fun kv => kv.1 == k) := by
  induction d with
  | nil =>
      simp only [List.nil_append, List.find?_cons, List.find?_nil, h]
  | cons hd tl ih =>
      simp only [List.cons_append, List.find?_cons]
      cases hp : (hd.1 == k)
      · simp only [hp]; exact ih
      · simp only [hp]

/-- Updating one key leaves every other key's lookup unchanged. -/
lemma dictGet?_dictSet_ne (d : Dict) (k k' : String) (v : JVal)
    (h : (k' == k) = false) :
    dictGet? (dictSet d k' v) k = dictGet? d k := by
  unfold dictSet dictGet?
  by_cases hc : dictContains d k' = true
  · rw [if_pos hc, find?_key_map_update d k k' v h]
  · rw [if_neg hc, find?_key_append d k k' v h]

/-- Filtering on a key predicate that holds at `k` leaves `k`'s lookup
unchanged. -/
lemma dictGet?_filter_keyPred (d : Dict) (q : String → Bool) (k : String)
    (hq : q k = true) :
    dictGet? (d.filter (fun kv => q kv.1)) k = dictGet? d k := by
  unfold dictGet?
  induction d with
  | nil => rfl
  | cons hd tl ih =>
      simp only [List.filter_cons]
      by_cases hp : (hd.1 == k) = true
      · have hd1 : hd.1 = k := by simpa using hp
        have hqd : q hd.1 = true := by rw [hd1]; exact hq
        rw [if_pos hqd]
        simp only [List.find?_cons, hp]
      · have hp' : (hd.1 == k) = false := by simpa using hp
        cases hqh : q hd.1
        · simp only [Bool.false_eq_true, if_false]
          conv_rhs => rw [List.find?_cons]
          simp only [hp']
          exact ih
        · rw [if_pos rfl]
          simp only [List.find?_cons, hp']
          exact ih

lemma ppCollapseKey_keeps (k k' : String) (d : Dict) (h : (k' == k) = false) :
    dictGet? (ppCollapseKey k' d) k = dictGet? d k := by
  unfold ppCollapseKey
  cases hx : dictGet? d k' with
  | none => rfl
  | some v => cases v <;> simp [dictGet?_dictSet_ne, h]

lemma ppAddress_keeps (k : String) (d : Dict)
    (h : ("patient_address" == k) = false) :
    dictGet? (ppAddress d) k = dictGet? d k := by
  unfold ppAddress
  split
  · split_ifs <;> simp [dictGet?_dictSet_ne, h]
  · rfl

lemma ppPhone_keeps (k : String) (d : Dict)
    (h : ("patient_phone" == k) = false) :
    dictGet? (ppPhone d) k = dictGet? d k := by
  unfold ppPhone
  split
  · split_ifs <;> simp [dictGet?_dictSet_ne, h]
  · rfl

/-- `_postprocess_uniformity` only rewrites the seven presentation keys. -/
lemma postprocess_keeps (k : String) (d : Dict)
    (h1 : ("invoice_number" == k) = false) (h2 : ("patient_name" == k) = false)
    (h3 : ("patient_address" == k) = false) (h4 : ("provider_name" == k) = false)
    (h5 : ("bed_id" == k) = false) (h6 : ("patient_email" == k) = false)
    (h7 : ("patient_phone" == k) = false) :
    dictGet? (_postprocess_uniformity d) k = dictGet? d k := by
  unfold _postprocess_uniformity
  simp only [List.foldl]
  rw [ppPhone_keeps _ _ h7, ppAddress_keeps _ _ h3,
    ppCollapseKey_keeps _ _ _ h6, ppCollapseKey_keeps _ _ _ h5,
    ppCollapseKey_keeps _ _ _ h4, ppCollapseKey_keeps _ _ _ h3,
    ppCollapseKey_keeps _ _ _ h2, ppCollapseKey_keeps _ _ _ h1]

lemma piSetDateIfMissing_keeps_ne (key : String) (ov : Option PyText)
    (d : Dict) (k : String) (h : (key == k) = false) :
    dictGet? (piSetDateIfMissing key ov d) k = dictGet? d k := by
  unfold piSetDateIfMissing
  split_ifs with hc
  · split
    · split_ifs <;> simp [dictGet?_dictSet_ne, h]
    · rfl
  · rfl

lemma piSetDateIfMissing_skip (key : String) (ov : Option PyText) (d : Dict)
    (ht : pyTruthy (dictGetD d key JVal.null) = true) :
    piSetDateIfMissing key ov d = d := by
  unfold piSetDateIfMissing
  simp [ht]

lemma piStage_dates_keeps_ne (adm dis : Option PyText) (d : Dict) (k : String)
    (h1 : ("admission_date" == k) = false)
    (h2 : ("discharge_date" == k) = false) :
    dictGet? (piStage_dates adm dis d) k = dictGet? d k := by
  unfold piStage_dates
  rw [piSetDateIfMissing_keeps_ne _ _ _ _ h2,
    piSetDateIfMissing_keeps_ne _ _ _ _ h1]

lemma piStage_dates_skip_adm (adm dis : Option PyText) (d : Dict)
    (ht : pyTruthy (dictGetD d "admission_date" JVal.null) = true) :
    dictGet? (piStage_dates adm dis d) "admission_date"
      = dictGet? d "admission_date" := by
  unfold piStage_dates
  rw [piSetDateIfMissing_keeps_ne _ _ _ _ (by decide),
    piSetDateIfMissing_skip _ _ _ ht]

lemma piStage_dates_skip_dis (adm dis : Option PyText) (d : Dict)
    (ht : pyTruthy (dictGetD d "discharge_date" JVal.null) = true) :
    dictGet? (piStage_dates adm dis d) "discharge_date"
      = dictGet? d "discharge_date" := by
  unfold piStage_dates
  have h1 : dictGet? (piSetDateIfMissing "admission_date" adm d) "discharge_date"
      = dictGet? d "discharge_date" :=
    piSetDateIfMissing_keeps_ne _ _ _ _ (by decide)
  have ht' : pyTruthy (dictGetD (piSetDateIfMissing "admission_date" adm d)
      "discharge_date" JVal.null) = true := by
    simpa [dictGetD, h1] using ht
  rw [piSetDateIfMissing_skip _ _ _ ht', ht] at *
  exact h1

lemma piStage_spatial_ok_keeps (prepped : PyText) (page : Page) (d d' : Dict)
    (k : String) (h : ("patient_address" == k) = false)
    (hok : piStage_spatial prepped page d = Except.ok d') :
    dictGet? d' k = dictGet? d k := by
  unfold piStage_spatial at hok
  split_ifs at hok
  · cases hs : extract_address_T1_spatial page with
    | error e => rw [hs] at hok; cases hok
    | ok addr_geo =>
        rw [hs] at hok
        cases hok
        cases addr_geo <;> simp [dictGet?_dictSet_ne, h] <;>
          split_ifs <;> simp [dictGet?_dictSet_ne, h]
  · cases hok
    rfl

lemma piStage_billed_keeps (prepped : PyText) (d : Dict) (k : String)
    (h1 : ("patient_name" == k) = false)
    (h2 : ("patient_address" == k) = false) :
    dictGet? (piStage_billed prepped d) k = dictGet? d k := by
  simp only [piStage_billed]
  split_ifs with hc
  · cases hn : (_extract_billed_to prepped).1 <;>
      cases ha : (_extract_billed_to prepped).2 <;>
      simp only [hn, ha] <;>
      (try split_ifs) <;>
      simp_all [dictGet?_dictSet_ne, h1, h2] <;>
      (try split_ifs) <;>
      simp_all [dictGet?_dictSet_ne, h1, h2]
  · rfl

lemma piStage_namefb_keeps (prepped : PyText) (d : Dict) (k : String)
    (h1 : ("patient_name" == k) = false) :
    dictGet? (piStage_namefb prepped d) k = dictGet? d k := by
  unfold piStage_namefb
  split_ifs with hc
  · cases hn : _patient_name_fallback prepped <;>
      simp_all [dictGet?_dictSet_ne, h1] <;>
      split_ifs <;> simp_all [dictGet?_dictSet_ne, h1]
  · rfl

lemma piStage_addrclean_keeps (d : Dict) (k : String)
    (h : ("patient_address" == k) = false) :
    dictGet? (piStage_addrclean d) k = dictGet? d k := by
  unfold piStage_addrclean
  split
  · split_ifs
    · split <;> simp [dictGet?_dictSet_ne, h]
    · rfl
  · rfl

lemma dueCanonPick_keeps (canon : List String) (inv : JVal) (d : Dict)
    (k : String) (h : ("due_date" == k) = false) :
    dictGet? (dueCanonPick canon inv d) k = dictGet? d k := by
  unfold dueCanonPick
  split <;> split_ifs <;> simp [dictGet?_dictSet_ne, h]

lemma dueNetPick_keeps (hdr : PyText) (inv : JVal) (d : Dict) (k : String)
    (h : ("due_date" == k) = false) :
    dictGet? (dueNetPick hdr inv d) k = dictGet? d k := by
  unfold dueNetPick
  split_ifs
  · split <;> simp [dictGet?_dictSet_ne, h]
  · rfl

lemma piStage_duedate_keeps_ne (prepped : PyText) (d : Dict) (k : String)
    (h : ("due_date" == k) = false) :
    dictGet? (piStage_duedate prepped d) k = dictGet? d k := by
  unfold piStage_duedate
  split_ifs with hc
  · rw [dueNetPick_keeps _ _ _ _ h, dueCanonPick_keeps _ _ _ _ h]
  · rfl

lemma piStage_duedate_skip (prepped : PyText) (d : Dict)
    (ht : pyTruthy (dictGetD d "due_date" JVal.null) = true) :
    piStage_duedate prepped d = d := by
  unfold piStage_duedate
  simp [ht]

lemma piStage_taxpurge_keeps (d : Dict) (k : String)
    (hq : pyStartsWith (pyLower k) "tax" = false) :
    dictGet? (piStage_taxpurge d) k = dictGet? d k := by
  unfold piStage_taxpurge
  exact dictGet?_filter_keyPred d
    (fun x => !(pyStartsWith (pyLower x) "tax")) k (by simp [hq])

/-- The stage chain of `parse_invoice` preserves the lookup of a key `k`
that none of its unconditional writes target, provided the dates stage
preserved it and — when `k` is `due_date` — the field was truthy to begin
with. -/
lemma parse_invoice_post_keeps (k : String) (prepped : PyText) (page : Page)
    (adm dis : Option PyText) (data : Dict)
    (h0 : dictGet? (piStage_dates adm dis data) k = dictGet? data k)
    (hdue : "due_date" = k → pyTruthy (dictGetD data k JVal.null) = true)
    (hA : ("patient_address" == k) = false)
    (hN : ("patient_name" == k) = false)
    (hL : ("line_items" == k) = false)
    (hT : pyStartsWith (pyLower k) "tax" = false)
    (hI : ("invoice_number" == k) = false)
    (hP : ("provider_name" == k) = false)
    (hBd : ("bed_id" == k) = false)
    (hE : ("patient_email" == k) = false)
    (hPh : ("patient_phone" == k) = false) :
    Except.map (fun r => dictGet? r k)
        (parse_invoice_post prepped page adm dis data)
      = Except.map (fun _ => dictGet? data k)
          (parse_invoice_post prepped page adm dis data) := by
  unfold parse_invoice_post
  cases hs : piStage_spatial prepped page (piStage_dates adm dis data) with
  | error e => rfl
  | ok d =>
      have h1 : dictGet? d k = dictGet? data k :=
        (piStage_spatial_ok_keeps _ _ _ _ _ hA hs).trans h0
      have h2 : dictGet? (piStage_billed prepped d) k = dictGet? data k :=
        (piStage_billed_keeps _ _ _ hN hA).trans h1
      have h3 : dictGet? (piStage_namefb prepped (piStage_billed prepped d)) k
          = dictGet? data k :=
        (piStage_namefb_keeps _ _ _ hN).trans h2
      have h4 : dictGet? (piStage_addrclean
            (piStage_namefb prepped (piStage_billed prepped d))) k
          = dictGet? data k :=
        (piStage_addrclean_keeps _ _ hA).trans h3
      have h5 : dictGet? (piStage_duedate prepped (piStage_addrclean
            (piStage_namefb prepped (piStage_billed prepped d)))) k
          = dictGet? data k := by
        by_cases hkd : "due_date" = k
        · have htd : pyTruthy (dictGetD (piStage_addrclean
              (piStage_namefb prepped (piStage_billed prepped d))) "due_date"
                JVal.null) = true := by
            rw [hkd]
            simpa [dictGetD, h4] using hdue hkd
          rw [piStage_duedate_skip _ _ htd]
          exact h4
        · exact (piStage_duedate_keeps_ne _ _ _
            (beq_eq_false_iff_ne.mpr hkd)).trans h4
      have h6 : dictGet? (dictSet (piStage_duedate prepped (piStage_addrclean
            (piStage_namefb prepped (piStage_billed prepped d)))) "line_items"
              (JVal.arr (extract_line_items page prepped))) k
          = dictGet? data k :=
        (dictGet?_dictSet_ne _ _ _ _ hL).trans h5
      have h7 : dictGet? (piStage_taxpurge (dictSet (piStage_duedate prepped
            (piStage_addrclean (piStage_namefb prepped (piStage_billed prepped
              d)))) "line_items" (JVal.arr (extract_line_items page prepped)))) k
          = dictGet? data k :=
        (piStage_taxpurge_keeps _ _ hT).trans h6
      have h8 := (postprocess_keeps k _ hI hN hA hP hBd hE hPh).trans h7
      simp only [Except.map]
      exact congrArg Except.ok h8

def demoC6 : PyText := "rose petal clinic\nAddress: 1, B".data

/-- **C6** (counterexample) — the claim "once an earlier strategy has
produced a non-null value for a field, no later strategy replaces it"
fails for `patient_address`: on `demoC6` the generic label-anchored
pattern (the `FIELD_PATTERNS` loop, the pipeline's first strategy for the
field) extracts the non-null `"1 B"`, and the template-specific extractor
run later in `extract_fields` replaces it with the different value
`"1, B"`. -/
theorem C6_counterexample_address_replaced :
    dictGet? (extract_fields_pats demoC6) "patient_address"
        = some (JVal.str "1 B")
    ∧ dictGet? (extract_fields_core demoC6) "patient_address"
        = some (JVal.str "1, B")
    ∧ isNull (JVal.str "1 B") = false
    ∧ ("1 B" : String) ≠ "1, B" :=
  ⟨by rfl, by rfl, rfl, by decide⟩

/-- **C6** (amended) — the first-truthy-result contract does hold for the
fields whose later strategies are guarded by falsiness checks: if
`admission_date`, `discharge_date` or `due_date` is truthy in the field
map produced by `extract_fields`, then no later stage of `parse_invoice`
(date locks, spatial override, `BILLED TO` fallback, name fallback,
address cleanup, due-date inference, line items, tax purge, uniformity
pass) replaces it — whenever parsing succeeds, the parsed record holds
exactly the value the earlier strategy produced. -/
theorem C6_theorem_overrides_keep_truthy_dates (k : String)
    (hk : k ∈ ["admission_date", "discharge_date", "due_date"])
    (prepped : PyText) (page : Page) (adm dis : Option PyText) (data : Dict)
    (ht : pyTruthy (dictGetD data k JVal.null) = true) :
    Except.map (fun r => dictGet? r k)
        (parse_invoice_post prepped page adm dis data)
      = Except.map (fun _ => dictGet? data k)
          (parse_invoice_post prepped page adm dis data) := by
  have hk' : k = "admission_date" ∨ k = "discharge_date" ∨ k = "due_date" := by
    simpa using hk
  rcases hk' with rfl | rfl | rfl
  · exact parse_invoice_post_keeps _ _ _ _ _ _
      (piStage_dates_skip_adm _ _ _ ht) (fun h => absurd h (by decide))
      (by decide) (by decide) (by decide) (by decide) (by decide) (by decide)
      (by decide) (by decide) (by decide)
  · exact parse_invoice_post_keeps _ _ _ _ _ _
      (piStage_dates_skip_dis _ _ _ ht) (fun h => absurd h (by decide))
      (by decide) (by decide) (by decide) (by decide) (by decide) (by decide)
      (by decide) (by decide) (by decide)
  · exact parse_invoice_post_keeps _ _ _ _ _ _
      (piStage_dates_keeps_ne _ _ _ _ (by decide) (by decide)) (fun _ => ht)
      (by decide) (by decide) (by decide) (by decide) (by decide) (by decide)
      (by decide) (by decide) (by decide)

/-- Witness for C6: a concrete field map with a truthy `admission_date`
on a concrete page; the hypotheses hold by evaluation. -/
theorem C6_theorem_overrides_keep_truthy_dates_witness :
    ("admission_date" ∈ ["admission_date", "discharge_date", "due_date"]
        : Prop)
    ∧ pyTruthy (dictGetD [("admission_date", JVal.str "2020-01-01")]
        "admission_date" JVal.null) = true
    ∧ Except.map (fun r => dictGet? r "admission_date")
        (parse_invoice_post [] (Page.mk none [] []) none none
          [("admission_date", JVal.str "2020-01-01")])
      = Except.map (fun _ => dictGet?
            [("admission_date", JVal.str "2020-01-01")] "admission_date")
          (parse_invoice_post [] (Page.mk none [] []) none none
            [("admission_date", JVal.str "2020-01-01")]) :=
  ⟨by decide, by rfl,
    C6_theorem_overrides_keep_truthy_dates "admission_date" (by decide)
      [] (Page.mk none [] []) none none
      [("admission_date", JVal.str "2020-01-01")] (by rfl)⟩

def docC2 : Document := ⟨[Page.mk none [] []]⟩

/-- The record the spec's null-safety clause prescribes for an empty-text
document — every schema field null and `line_items == []`.  (This one
definition is modelled from the *spec's words*, to compare against the
code's actual output.) -/
def nullFilledInvoiceRecord : Dict :=
  invoice_schema_v1_fields.map
    (fun k => (k, if k == "line_items" then JVal.arr [] else JVal.null))

/-- **C2** (amended) — extraction from a document whose first page yields
no text (a falsy `extract_text()` result) never raises — the entrypoint
is total, every exception becoming an error record — but it returns the
single-key record `{"error": "Could not extract text from PDF."}`, not a
null-filled `ExtractedRecord`. -/
theorem C2_theorem_empty_text_error_record (page : Page) (rest : List Page)
    (h : (page.raw_text.getD []).isEmpty = true) :
    parse_pdf_bytes ⟨page :: rest⟩
      = [("error", JVal.str "Could not extract text from PDF.")] := by
  unfold parse_pdf_bytes parse_pdf_bytes_core
  simp [h]

/-- Witness for C2 at a concrete one-page document with no text. -/
theorem C2_theorem_empty_text_error_record_witness :
    ((Page.mk none [] []).raw_text.getD []).isEmpty = true
    ∧ parse_pdf_bytes ⟨[Page.mk none [] []]⟩
        = [("error", JVal.str "Could not extract text from PDF.")] :=
  ⟨rfl, C2_theorem_empty_text_error_record (Page.mk none [] []) [] rfl⟩

/-- **C2** (counterexample) — on the empty-text document `docC2` the
entrypoint returns the error record, whose key set differs from the
null-filled record the spec describes. -/
theorem C2_counterexample_error_not_null_record :
    parse_pdf_bytes docC2
        = [("error", JVal.str "Could not extract text from PDF.")]
    ∧ dictKeys (parse_pdf_bytes docC2) ≠ dictKeys nullFilledInvoiceRecord :=
  ⟨by rfl, by decide⟩

end Caldarium
